import Mathlib

/-!
Shallow embedding of the glyph-atlas text-rendering core:
the texture-atlas shelf packer (`src/renderer/atlas.rs`), the glyph cache
(`src/renderer/text/glyph_cache.rs`), and the instance batcher / driver
(`src/renderer.rs`), together with the rasterizer-facing data model from
`crossfont/src/lib.rs`.

Modelling conventions:
* Rust `i32` values (pixel sizes, bearings, packing cursors) are embedded as
  `Int`; the sizes involved are far below the `i32` range, and no arithmetic
  in the modelled code can wrap.
* Rust `as i16` casts are embedded explicitly by `toI16` (two's-complement
  wrapping).
* The `f32` UV coordinates are embedded as `ℚ`.  Every UV value produced by
  the code is `k / 1024` with `0 ≤ k ≤ 1024` an integer, and every `f32`
  operation the code performs on such values (division by the power of two
  `1024`, comparison) is exact, so the rational model is bit-faithful.
* GPU calls (`gl::*`) are effects outside the data model and are dropped;
  the texture is identified by its `id`, and the pixel upload has no bearing
  on any claim.
-/

namespace GlyphAtlas

/-- Two's-complement wrap of an integer into the `i16` range, modelling a
Rust `as i16` cast. -/
def toI16 (x : Int) : Int := (x + 32768) % 65536 - 32768

/-- Font identifier (`crossfont::FontKey`), a globally unique token. -/
structure FontKey where
  token : Nat
deriving DecidableEq, Repr

/-- Font size (`crossfont::Size`), stored as an integer (half-points). -/
structure FSize where
  halfPoints : Int
deriving DecidableEq, Repr

/-- Cache key for one glyph (`crossfont::GlyphKey`): character, font, size. -/
structure GlyphKey where
  character : Char
  font_key : FontKey
  size : FSize
deriving DecidableEq, Repr

/-- Bitmap payload of a rasterized glyph (`crossfont::BitmapBuffer`):
an RGB alpha mask or RGBA premultiplied color data. -/
inductive BitmapBuffer where
  | rgb (bytes : List Nat)
  | rgba (bytes : List Nat)
deriving DecidableEq, Repr

/-- Output of the rasterizer for one glyph (`crossfont::RasterizedGlyph`). -/
structure RasterizedGlyph where
  character : Char
  width : Int
  height : Int
  top : Int
  left : Int
  advance : Int × Int
  buffer : BitmapBuffer
deriving DecidableEq, Repr

/-- The `Default` impl for `RasterizedGlyph` in `crossfont/src/lib.rs`:
a zero-size blank glyph for the space character. -/
def RasterizedGlyph.default : RasterizedGlyph :=
  { character := Char.ofNat 32
    width := 0
    height := 0
    top := 0
    left := 0
    advance := (0, 0)
    buffer := BitmapBuffer.rgb [] }

/-- Font metrics (`crossfont::Metrics`).  The source stores `f32`/`f64`
values; the glyph cache only ever uses `descent as i32` and
`average_advance as i32`, so the fields here are the already-truncated
integer values consumed by `GlyphCache::load_glyph`. -/
structure Metrics where
  average_advance : Int
  descent : Int
deriving DecidableEq, Repr

/-- Result of `Rasterize::get_glyph`.  `missingGlyph` is
`Err(Error::MissingGlyph(_))` carrying the rasterized fallback bitmap;
`err` collapses every other `Error` variant, which `GlyphCache::get`
treats uniformly through its `Err(_)` arm. -/
inductive RasterResult where
  | ok (g : RasterizedGlyph)
  | missingGlyph (g : RasterizedGlyph)
  | err
deriving DecidableEq, Repr

/-! ## Atlas (`src/renderer/atlas.rs`) -/

/-- Packed-glyph descriptor produced by the atlas (`atlas::Glyph`). -/
structure AtlasGlyph where
  tex_id : Nat
  top : Int
  left : Int
  width : Int
  height : Int
  uv_bot : ℚ
  uv_left : ℚ
  uv_width : ℚ
  uv_height : ℚ
deriving DecidableEq, Repr

/-- Side length of every atlas texture (`ATLAS_SIZE`). -/
def ATLAS_SIZE : Int := 1024

/-- One texture atlas with its shelf-packing cursor (`atlas::Atlas`). -/
structure Atlas where
  id : Nat
  width : Int
  height : Int
  row_extent : Int
  row_baseline : Int
  row_tallest : Int
deriving DecidableEq, Repr

/-- Construction of a fresh atlas (`Atlas::new`); the GL texture id is
threaded explicitly instead of coming from `gl::GenTextures`. -/
def Atlas.new (id : Nat) (size : Int) : Atlas :=
  { id := id, width := size, height := size
    row_extent := 0, row_baseline := 0, row_tallest := 0 }

/-- Unconditional placement of a bitmap at the current cursor
(`Atlas::insert_inner`): uploads at `(row_extent, row_baseline)`, advances
`row_extent`, raises `row_tallest`, and emits the packed descriptor with
normalized UV coordinates. -/
def Atlas.insert_inner (a : Atlas) (glyph : RasterizedGlyph) :
    Atlas × AtlasGlyph :=
  let offset_y := a.row_baseline
  let offset_x := a.row_extent
  let a' := { a with
    row_extent := offset_x + glyph.width
    row_tallest := if glyph.height > a.row_tallest then glyph.height
      else a.row_tallest }
  let uv_bot : ℚ := (offset_y : ℚ) / (a.height : ℚ)
  let uv_left : ℚ := (offset_x : ℚ) / (a.width : ℚ)
  let uv_height : ℚ := (glyph.height : ℚ) / (a.height : ℚ)
  let uv_width : ℚ := (glyph.width : ℚ) / (a.width : ℚ)
  (a', { tex_id := a.id
         top := toI16 glyph.top
         left := toI16 glyph.left
         width := toI16 glyph.width
         height := toI16 glyph.height
         uv_bot := uv_bot, uv_left := uv_left
         uv_width := uv_width, uv_height := uv_height })

/-- Outcome of one attempted insertion into a single atlas. -/
inductive InsertRes where
  | ok (g : AtlasGlyph)
  | full
  | tooLarge
deriving DecidableEq, Repr

/-- Modelled from the spec: `Atlas::insert` is absent from `src/` (only its
callee `insert_inner` and its transitive caller, the `LoadGlyph` impl in
`src/renderer.rs`, are present).  Per spec section 4.2: (1) if
`row_extent + bitmap.width > atlas.width`, close the row
(`row_baseline += row_tallest`, `row_extent = 0`, `row_tallest = 0`);
(2) if `row_baseline + bitmap.height > atlas.height`, signal overflow;
(3) otherwise place via `insert_inner`.  A bitmap exceeding the atlas
dimensions is a distinct fatal configuration error (spec sections 4.2
and 7), checked up front so that it is never retried. -/
def Atlas.insert (a : Atlas) (glyph : RasterizedGlyph) : Atlas × InsertRes :=
  if glyph.width > a.width ∨ glyph.height > a.height then
    (a, InsertRes.tooLarge)
  else
    let a1 := if a.row_extent + glyph.width > a.width then
        { a with row_baseline := a.row_baseline + a.row_tallest
                 row_extent := 0, row_tallest := 0 }
      else a
    if a1.row_baseline + glyph.height > a1.height then
      (a1, InsertRes.full)
    else
      let r := a1.insert_inner glyph
      (r.1, InsertRes.ok r.2)

/-- Growing collection of atlases plus the index currently accepting
insertions (the `atlas: Vec<Atlas>` / `current_atlas: usize` pair of
`Glsl3Renderer`, reached through the `LoadGlyph` impl).  `next_id` supplies
fresh texture ids in place of `gl::GenTextures`. -/
structure AtlasSet where
  atlases : List Atlas
  current : Nat
  next_id : Nat
deriving DecidableEq, Repr

/-- Modelled from the spec: `Atlas::load_glyph` (the `AtlasSet` overflow
policy) is absent from `src/`; only its caller
`impl LoadGlyph for Glsl3Renderer` in `src/renderer.rs` is present.  Per
spec sections 4.2 and 7: insert into the current atlas; on overflow append
one brand-new atlas, make it current, and retry exactly once; a bitmap
exceeding the atlas dimensions is a fatal configuration error (`none`). -/
def AtlasSet.load_glyph (s : AtlasSet) (glyph : RasterizedGlyph) :
    Option (AtlasSet × AtlasGlyph) :=
  match s.atlases[s.current]? with
  | none => none
  | some a =>
    match a.insert glyph with
    | (a', InsertRes.ok gl) =>
      some ({ s with atlases := s.atlases.set s.current a' }, gl)
    | (_, InsertRes.tooLarge) => none
    | (a', InsertRes.full) =>
      let atlases' := s.atlases.set s.current a'
      let fresh := Atlas.new s.next_id ATLAS_SIZE
      match fresh.insert glyph with
      | (f', InsertRes.ok gl) =>
        some ({ atlases := atlases' ++ [f']
                current := atlases'.length
                next_id := s.next_id + 1 }, gl)
      | _ => none

/-- Initial atlas set of `Glsl3Renderer::new`: one fresh atlas of side
`ATLAS_SIZE`; texture ids are handed out from 1. -/
def initialAtlasSet : AtlasSet :=
  { atlases := [Atlas.new 1 ATLAS_SIZE], current := 0, next_id := 2 }

/-- Folding `load_glyph` over a sequence of bitmaps, collecting the packed
glyphs; a fatal configuration error aborts the whole sequence. -/
def AtlasSet.loadAll (s : AtlasSet) :
    List RasterizedGlyph → Option (AtlasSet × List AtlasGlyph)
  | [] => some (s, [])
  | g :: gs =>
    match s.load_glyph g with
    | none => none
    | some (s', gl) =>
      match s'.loadAll gs with
      | none => none
      | some (s'', gls) => some (s'', gl :: gls)

/-! ## Glyph cache (`src/renderer/text/glyph_cache.rs`) -/

/-- Cached, GPU-ready glyph descriptor (`glyph_cache::Glyph`, the
`PackedGlyph` of the spec). -/
structure Glyph where
  tex_id : Nat
  multicolor : Bool
  top : Int
  left : Int
  width : Int
  height : Int
  uv_bot : ℚ
  uv_left : ℚ
  uv_width : ℚ
  uv_height : ℚ
deriving DecidableEq, Repr

/-- The `LoadGlyph` trait: a loader copies a rasterized glyph into graphics
memory, threading its own state of type `σ` (the renderer's atlas set in
the real program).  `clear` is not modelled; no claim touches the reset
path. -/
structure LoadGlyphOps (σ : Type) where
  load_glyph : σ → RasterizedGlyph → σ × Glyph

/-- Glyph-cache map model.  The source uses a `HashMap<GlyphKey, Glyph>`;
since no code path iterates the map, a lookup function is a faithful
model. -/
def CacheMap : Type := GlyphKey → Option Glyph

/-- An empty cache (`Default::default()` for the map). -/
def emptyCache : CacheMap := fun _ => none

/-- `HashMap::insert`: later bindings shadow earlier ones. -/
def CacheMap.insert (c : CacheMap) (k : GlyphKey) (g : Glyph) : CacheMap :=
  fun k' => if k' = k then some g else c k'

/-- `cache.entry(key).or_insert(glyph)`: keeps an existing entry, inserting
`glyph` only when the key is vacant; returns the entry's value either
way. -/
def CacheMap.orInsert (c : CacheMap) (k : GlyphKey) (g : Glyph) :
    CacheMap × Glyph :=
  match c k with
  | some old => (c, old)
  | none => (c.insert k g, g)

/-- The reserved sentinel character under which the shared missing-glyph
fallback is cached (the `\u{0}` literal in `GlyphCache::get`). -/
def sentinelChar : Char := Char.ofNat 0

/-- `GlyphCache::load_glyph`: apply the cache's metric corrections to a
rasterized bitmap, then hand it to the loader.  `charWidth` models the
external `unicode_width::UnicodeWidthChar::width`. -/
def GlyphCache.load_glyph {σ : Type} (metrics : Metrics)
    (charWidth : Char → Option Nat) (ops : LoadGlyphOps σ) (ld : σ)
    (glyph : RasterizedGlyph) : σ × Glyph :=
  let glyph := { glyph with top := glyph.top - metrics.descent }
  let glyph := if charWidth glyph.character = some 0 then
      { glyph with left := glyph.left + metrics.average_advance }
    else glyph
  ops.load_glyph ld glyph

/-- Result of one `GlyphCache::get` call, instrumented with the keys passed
to `Rasterize::get_glyph` (`rasterKeys`, at most one) and the number of
loader invocations (`loads`). -/
structure GetOut (σ : Type) where
  cache : CacheMap
  ld : σ
  glyph : Glyph
  rasterKeys : List GlyphKey
  loads : Nat

/-- The final `*self.cache.entry(glyph_key).or_insert(glyph)` step shared
by every cache-miss path of `GlyphCache::get`, packaging the updated map,
loader state, returned glyph and instrumentation. -/
def GlyphCache.finishGet {σ : Type} (cache1 : CacheMap) (ld1 : σ)
    (g : Glyph) (n : Nat) (glyph_key : GlyphKey) : GetOut σ :=
  let fin := cache1.orInsert glyph_key g
  ⟨fin.1, ld1, fin.2, [glyph_key], n⟩

/-- `GlyphCache::get`.  The rasterizer is passed as the pure function
`raster` (the source's `Rasterizer::get_glyph` reads but never writes the
rasterizer state).  On a cache hit the stored descriptor is returned
untouched; on a miss the rasterizer runs once and the outcome is handled
by the three arms of the source `match`: success packs the corrected
bitmap, `MissingGlyph` with `show_missing` resolves through the shared
sentinel entry, and every other failure packs the zero-size default
glyph.  Every miss path finishes with `entry(key).or_insert(glyph)`. -/
def GlyphCache.get {σ : Type} (metrics : Metrics)
    (charWidth : Char → Option Nat) (raster : GlyphKey → RasterResult)
    (ops : LoadGlyphOps σ) (cache : CacheMap) (ld : σ)
    (glyph_key : GlyphKey) (show_missing : Bool) : GetOut σ :=
  match cache glyph_key with
  | some glyph => ⟨cache, ld, glyph, [], 0⟩
  | none =>
    match raster glyph_key with
    | RasterResult.ok rasterized =>
      let r := GlyphCache.load_glyph metrics charWidth ops ld rasterized
      GlyphCache.finishGet cache r.1 r.2 1 glyph_key
    | RasterResult.missingGlyph rasterized =>
      if show_missing then
        match cache { glyph_key with character := sentinelChar } with
        | some glyph => GlyphCache.finishGet cache ld glyph 0 glyph_key
        | none =>
          let r := GlyphCache.load_glyph metrics charWidth ops ld rasterized
          GlyphCache.finishGet
            (cache.insert { glyph_key with character := sentinelChar } r.2)
            r.1 r.2 1 glyph_key
      else
        let r := GlyphCache.load_glyph metrics charWidth ops ld
          RasterizedGlyph.default
        GlyphCache.finishGet cache r.1 r.2 1 glyph_key
    | RasterResult.err =>
      let r := GlyphCache.load_glyph metrics charWidth ops ld
        RasterizedGlyph.default
      GlyphCache.finishGet cache r.1 r.2 1 glyph_key

/-- Accumulated outcome of a sequence of `get` calls. -/
structure RunOut (σ : Type) where
  cache : CacheMap
  ld : σ
  results : List Glyph
  rasterKeys : List GlyphKey
  loads : Nat

/-- Run a list of `(key, show_missing)` requests through `GlyphCache::get`,
threading cache and loader state and concatenating the instrumentation. -/
def runGets {σ : Type} (metrics : Metrics) (charWidth : Char → Option Nat)
    (raster : GlyphKey → RasterResult) (ops : LoadGlyphOps σ) :
    CacheMap → σ → List (GlyphKey × Bool) → RunOut σ
  | cache, ld, [] => ⟨cache, ld, [], [], 0⟩
  | cache, ld, (k, sm) :: rest =>
    let o := GlyphCache.get metrics charWidth raster ops cache ld k sm
    let r := runGets metrics charWidth raster ops o.cache o.ld rest
    ⟨r.cache, r.ld, o.glyph :: r.results, o.rasterKeys ++ r.rasterKeys,
      o.loads + r.loads⟩

/-- The results of exactly those requests in a run that asked for key `k`,
in order. -/
def resultsFor (k : GlyphKey) :
    List (GlyphKey × Bool) → List Glyph → List Glyph
  | (k', _) :: rs, g :: gs =>
    (if k' = k then [g] else []) ++ resultsFor k rs gs
  | _, _ => []

/-! ## Batch and driver (`src/renderer.rs`) -/

/-- Renderable cell handed to the driver (`RenderableCell`). -/
structure RenderableCell where
  character : Char
  line : Nat
  column : Nat
  font_key : Nat
deriving DecidableEq, Repr

/-- Per-instance GPU record (`InstanceData`); `col`/`row` carry the
`as u16` casts of the cell coordinates. -/
structure InstanceData where
  col : Nat
  row : Nat
  left : Int
  top : Int
  width : Int
  height : Int
  uv_left : ℚ
  uv_bot : ℚ
  uv_width : ℚ
  uv_height : ℚ
deriving DecidableEq, Repr

/-- The batch accumulator state inside `Glsl3Renderer`: the bound texture
`tex` and the pending `instances`. -/
structure RBatch where
  tex : Nat
  instances : List InstanceData
deriving DecidableEq, Repr

/-- Batch state right after `Glsl3Renderer::new` (`tex: 0`, no
instances). -/
def RBatch.new : RBatch := { tex := 0, instances := [] }

/-- `Glsl3Renderer::add_item`: when the instance list is empty, adopt the
glyph's texture as the batch texture; then append one instance built from
the cell and glyph, unconditionally. -/
def Glsl3Renderer.add_item (b : RBatch) (cell : RenderableCell)
    (glyph : AtlasGlyph) : RBatch :=
  let b := if b.instances.length = 0 then { b with tex := glyph.tex_id }
    else b
  { b with instances := b.instances ++
      [{ col := cell.column % 65536
         row := cell.line % 65536
         left := glyph.left, top := glyph.top
         width := glyph.width, height := glyph.height
         uv_left := glyph.uv_left, uv_bot := glyph.uv_bot
         uv_width := glyph.uv_width, uv_height := glyph.uv_height }] }

/-- The per-cell loop of `Glsl3Renderer::draw_cells`: each cell's glyph
(resolved through the cache) is fed to `add_item`; the loop contains no
flush — `render_batch` is never called from `draw_cells`. -/
def Glsl3Renderer.draw_cells_loop :
    RBatch → List (RenderableCell × AtlasGlyph) → RBatch
  | b, [] => b
  | b, (cell, glyph) :: rest =>
    Glsl3Renderer.draw_cells_loop (Glsl3Renderer.add_item b cell glyph) rest

/-! ## Atlas invariants and packing lemmas -/

/-- Well-formedness of a single atlas's packing cursor: all cursor fields
are nonnegative and the current row (baseline plus tallest glyph) stays
inside the texture. -/
def Atlas.Inv (a : Atlas) : Prop :=
  0 ≤ a.row_extent ∧ 0 ≤ a.row_tallest ∧ 0 ≤ a.row_baseline ∧
    a.row_baseline + a.row_tallest ≤ a.height

/-- An atlas has the standard fixed dimensions. -/
def Atlas.StdDims (a : Atlas) : Prop :=
  a.width = ATLAS_SIZE ∧ a.height = ATLAS_SIZE

/-- Validity of a packed glyph's normalized UV rectangle. -/
def uvOK (gl : AtlasGlyph) : Prop :=
  0 ≤ gl.uv_left ∧ 0 ≤ gl.uv_bot ∧ gl.uv_left + gl.uv_width ≤ 1 ∧
    gl.uv_bot + gl.uv_height ≤ 1

/-- Well-formedness of the atlas set: every atlas is well formed with the
standard dimensions, and the current index is in range. -/
def AtlasSet.SInv (s : AtlasSet) : Prop :=
  (∀ a ∈ s.atlases, a.Inv ∧ a.StdDims) ∧ s.current < s.atlases.length

theorem Atlas.new_inv (id : Nat) :
    (Atlas.new id ATLAS_SIZE).Inv ∧ (Atlas.new id ATLAS_SIZE).StdDims := by
  unfold Atlas.Inv Atlas.StdDims Atlas.new ATLAS_SIZE
  norm_num

theorem Atlas.insert_def (a : Atlas) (g : RasterizedGlyph) :
    a.insert g =
      if g.width > a.width ∨ g.height > a.height then (a, InsertRes.tooLarge)
      else
        let a1 := if a.row_extent + g.width > a.width then
            { a with row_baseline := a.row_baseline + a.row_tallest
                     row_extent := 0, row_tallest := 0 }
          else a
        if a1.row_baseline + g.height > a1.height then (a1, InsertRes.full)
        else ((a1.insert_inner g).1, InsertRes.ok (a1.insert_inner g).2) :=
  rfl

theorem Atlas.insert_inner_fst (a : Atlas) (g : RasterizedGlyph) :
    (a.insert_inner g).1 =
      { a with row_extent := a.row_extent + g.width
               row_tallest := if g.height > a.row_tallest then g.height
                 else a.row_tallest } := rfl

theorem Atlas.insert_inner_snd (a : Atlas) (g : RasterizedGlyph) :
    (a.insert_inner g).2 =
      { tex_id := a.id
        top := toI16 g.top, left := toI16 g.left
        width := toI16 g.width, height := toI16 g.height
        uv_bot := (a.row_baseline : ℚ) / (a.height : ℚ)
        uv_left := (a.row_extent : ℚ) / (a.width : ℚ)
        uv_width := (g.width : ℚ) / (a.width : ℚ)
        uv_height := (g.height : ℚ) / (a.height : ℚ) } := rfl

/-- The state after any single-atlas insertion keeps the packing invariant
and never changes the atlas's identity or dimensions. -/
theorem Atlas.insert_fst_inv (a : Atlas) (g : RasterizedGlyph)
    (ha : a.Inv) (h0 : 0 ≤ g.width) (h1 : 0 ≤ g.height) :
    (a.insert g).1.Inv ∧ (a.insert g).1.id = a.id ∧
      (a.insert g).1.width = a.width ∧ (a.insert g).1.height = a.height := by
  obtain ⟨i1, i2, i3, i4⟩ := ha
  rw [Atlas.insert_def]
  unfold Atlas.Inv
  by_cases hC0 : g.width > a.width ∨ g.height > a.height
  · simp only [if_pos hC0]
    exact ⟨⟨i1, i2, i3, i4⟩, trivial, trivial, trivial⟩
  · simp only [if_neg hC0, Atlas.insert_inner_fst]
    by_cases hC1 : a.row_extent + g.width > a.width
    · simp only [if_pos hC1]
      by_cases hC2 : a.row_baseline + a.row_tallest + g.height > a.height
      · simp only [if_pos hC2]
        refine ⟨⟨?_, ?_, ?_, ?_⟩, trivial, trivial, trivial⟩ <;> omega
      · simp only [if_neg hC2]
        refine ⟨⟨?_, ?_, ?_, ?_⟩, trivial, trivial, trivial⟩ <;>
          first
            | omega
            | (split <;> omega)
    · simp only [if_neg hC1]
      by_cases hC2 : a.row_baseline + g.height > a.height
      · simp only [if_pos hC2]
        exact ⟨⟨i1, i2, i3, i4⟩, trivial, trivial, trivial⟩
      · simp only [if_neg hC2]
        refine ⟨⟨?_, ?_, ?_, ?_⟩, trivial, trivial, trivial⟩ <;>
          first
            | omega
            | (split <;> omega)

/-- A glyph packed by `insert_inner` from a position known to fit lies
entirely inside the texture in UV space. -/
theorem Atlas.insert_inner_uvOK (a : Atlas) (g : RasterizedGlyph)
    (hre : 0 ≤ a.row_extent) (hrb : 0 ≤ a.row_baseline)
    (hw : a.row_extent + g.width ≤ a.width)
    (hh : a.row_baseline + g.height ≤ a.height)
    (hwpos : 0 < a.width) (hhpos : 0 < a.height) :
    uvOK (a.insert_inner g).2 := by
  rw [Atlas.insert_inner_snd]
  have hwq : (0 : ℚ) < (a.width : ℚ) := by exact_mod_cast hwpos
  have hhq : (0 : ℚ) < (a.height : ℚ) := by exact_mod_cast hhpos
  refine ⟨?_, ?_, ?_, ?_⟩
  · exact div_nonneg (by exact_mod_cast hre) (le_of_lt hwq)
  · exact div_nonneg (by exact_mod_cast hrb) (le_of_lt hhq)
  · rw [div_add_div_same, div_le_one hwq]
    exact_mod_cast hw
  · rw [div_add_div_same, div_le_one hhq]
    exact_mod_cast hh

/-- Every glyph successfully packed by a well-formed standard atlas has a
valid UV rectangle. -/
theorem Atlas.insert_ok_uvOK (a a' : Atlas) (g : RasterizedGlyph)
    (gl : AtlasGlyph) (ha : a.Inv) (hd : a.StdDims)
    (h0 : 0 ≤ g.width) (h1 : 0 ≤ g.height)
    (hres : a.insert g = (a', InsertRes.ok gl)) : uvOK gl := by
  obtain ⟨i1, i2, i3, i4⟩ := ha
  obtain ⟨dw, dh⟩ := hd
  have hwpos : 0 < a.width := by rw [dw]; norm_num [ATLAS_SIZE]
  have hhpos : 0 < a.height := by rw [dh]; norm_num [ATLAS_SIZE]
  rw [Atlas.insert_def] at hres
  by_cases hC0 : g.width > a.width ∨ g.height > a.height
  · rw [if_pos hC0, Prod.mk.injEq] at hres
    exact absurd hres.2 (by simp)
  · rw [if_neg hC0] at hres
    push_neg at hC0
    obtain ⟨hgw, hgh⟩ := hC0
    by_cases hC1 : a.row_extent + g.width > a.width
    · simp only [if_pos hC1] at hres
      by_cases hC2 : a.row_baseline + a.row_tallest + g.height > a.height
      · simp only [if_pos hC2, Prod.mk.injEq] at hres
        exact absurd hres.2 (by simp)
      · simp only [if_neg hC2, Prod.mk.injEq] at hres
        have hgl := hres.2
        rw [InsertRes.ok.injEq] at hgl
        rw [← hgl]
        refine Atlas.insert_inner_uvOK _ g ?_ ?_ ?_ ?_ ?_ ?_
        · show (0 : Int) ≤ 0
          omega
        · show (0 : Int) ≤ a.row_baseline + a.row_tallest
          omega
        · show (0 : Int) + g.width ≤ a.width
          omega
        · show a.row_baseline + a.row_tallest + g.height ≤ a.height
          omega
        · exact hwpos
        · exact hhpos
    · simp only [if_neg hC1] at hres
      by_cases hC2 : a.row_baseline + g.height > a.height
      · simp only [if_pos hC2, Prod.mk.injEq] at hres
        exact absurd hres.2 (by simp)
      · simp only [if_neg hC2, Prod.mk.injEq] at hres
        have hgl := hres.2
        rw [InsertRes.ok.injEq] at hgl
        rw [← hgl]
        exact Atlas.insert_inner_uvOK _ g i1 i3 (by omega) (by omega)
          hwpos hhpos

/-- One `load_glyph` step preserves the atlas-set invariant, and the packed
glyph it returns has a valid UV rectangle. -/
theorem AtlasSet.load_glyph_some (s : AtlasSet) (g : RasterizedGlyph)
    (hs : s.SInv) (h0 : 0 ≤ g.width) (h1 : 0 ≤ g.height) (s' : AtlasSet)
    (gl : AtlasGlyph) (hres : s.load_glyph g = some (s', gl)) :
    s'.SInv ∧ uvOK gl := by
  obtain ⟨hmem, hcur⟩ := hs
  unfold AtlasSet.load_glyph at hres
  split at hres
  · exact absurd hres (by simp)
  · rename_i a ha
    have hamem : a ∈ s.atlases := by
      have := List.getElem?_eq_getElem hcur
      rw [this] at ha
      rw [← Option.some_inj.mp ha]
      exact List.getElem_mem hcur
    obtain ⟨hainv, hadims⟩ := hmem a hamem
    split at hres
    · rename_i a' gl2 hins
      rw [Option.some_inj] at hres
      obtain ⟨hs', hgl⟩ := Prod.mk.injEq .. ▸ hres
      have hfi := Atlas.insert_fst_inv a g hainv h0 h1
      rw [hins] at hfi
      have huv := Atlas.insert_ok_uvOK a a' g gl2 hainv hadims h0 h1 hins
      subst hgl
      refine ⟨⟨?_, ?_⟩, huv⟩
      · rw [← hs']
        intro b hb
        rcases List.mem_or_eq_of_mem_set hb with hb' | hb'
        · exact hmem b hb'
        · subst hb'
          exact ⟨hfi.1, ⟨hfi.2.2.1.trans hadims.1, hfi.2.2.2.trans hadims.2⟩⟩
      · rw [← hs']
        simpa using hcur
    · exact absurd hres (by simp)
    · rename_i a' hins
      dsimp only at hres
      split at hres
      · rename_i f' gl2 hins2
        rw [Option.some_inj] at hres
        obtain ⟨hs', hgl⟩ := Prod.mk.injEq .. ▸ hres
        have hnew := Atlas.new_inv s.next_id
        have hfi := Atlas.insert_fst_inv (Atlas.new s.next_id ATLAS_SIZE) g
          hnew.1 h0 h1
        rw [hins2] at hfi
        have hfull := Atlas.insert_fst_inv a g hainv h0 h1
        rw [hins] at hfull
        have huv := Atlas.insert_ok_uvOK (Atlas.new s.next_id ATLAS_SIZE) f' g
          gl2 hnew.1 hnew.2 h0 h1 hins2
        subst hgl
        refine ⟨⟨?_, ?_⟩, huv⟩
        · rw [← hs']
          intro b hb
          rcases List.mem_append.mp hb with hb' | hb'
          · rcases List.mem_or_eq_of_mem_set hb' with hb'' | hb''
            · exact hmem b hb''
            · subst hb''
              exact ⟨hfull.1,
                ⟨hfull.2.2.1.trans hadims.1, hfull.2.2.2.trans hadims.2⟩⟩
          · rw [List.mem_singleton.mp hb']
            exact ⟨hfi.1,
              ⟨hfi.2.2.1.trans hnew.2.1, hfi.2.2.2.trans hnew.2.2⟩⟩
        · rw [← hs']
          simp
      · exact absurd hres (by simp)

/-- Folding `load_glyph` over any bitmap sequence preserves the invariant,
and every packed glyph it emits has a valid UV rectangle. -/
theorem AtlasSet.loadAll_some (gs : List RasterizedGlyph) :
    ∀ (s : AtlasSet), s.SInv →
    (∀ g ∈ gs, 0 ≤ g.width ∧ 0 ≤ g.height) →
    ∀ (s' : AtlasSet) (gls : List AtlasGlyph),
    s.loadAll gs = some (s', gls) →
    s'.SInv ∧ ∀ gl ∈ gls, uvOK gl := by
  induction gs with
  | nil =>
    intro s hs _ s' gls hres
    unfold AtlasSet.loadAll at hres
    rw [Option.some_inj] at hres
    obtain ⟨h1, h2⟩ := Prod.mk.injEq .. ▸ hres
    subst h1
    subst h2
    exact ⟨hs, by simp⟩
  | cons g gs ih =>
    intro s hs hg s' gls hres
    unfold AtlasSet.loadAll at hres
    split at hres
    · exact absurd hres (by simp)
    · rename_i s1 gl hstep
      split at hres
      · exact absurd hres (by simp)
      · rename_i s2 gls2 hrest
        rw [Option.some_inj] at hres
        obtain ⟨h1, h2⟩ := Prod.mk.injEq .. ▸ hres
        have hg0 := hg g (by simp)
        have hone := AtlasSet.load_glyph_some s g hs hg0.1 hg0.2 s1 gl hstep
        have hrec := ih s1 hone.1 (fun g' hg' => hg g' (by simp [hg']))
          s2 gls2 hrest
        refine ⟨h1 ▸ hrec.1, ?_⟩
        intro gl' hgl'
        rw [← h2] at hgl'
        rcases List.mem_cons.mp hgl' with h | h
        · rw [h]
          exact hone.2
        · exact hrec.2 gl' h

/-- Insertion into a brand-new standard atlas always succeeds when the
bitmap fits within the atlas dimensions. -/
theorem Atlas.new_insert_ok (n : Nat) (g : RasterizedGlyph)
    (hw : g.width ≤ ATLAS_SIZE) (hh : g.height ≤ ATLAS_SIZE) :
    (Atlas.new n ATLAS_SIZE).insert g =
      (((Atlas.new n ATLAS_SIZE).insert_inner g).1,
        InsertRes.ok ((Atlas.new n ATLAS_SIZE).insert_inner g).2) := by
  have hw' : g.width ≤ 1024 := hw
  have hh' : g.height ≤ 1024 := hh
  rw [Atlas.insert_def]
  rw [if_neg (by simp only [Atlas.new, ATLAS_SIZE]; omega)]
  simp only [Atlas.new, ATLAS_SIZE]
  have hcw : ¬ ((0 : Int) + g.width > 1024) := by omega
  simp only [if_neg hcw]
  have hch : ¬ ((0 : Int) + g.height > 1024) := by omega
  simp only [if_neg hch]

/-- The initial single-atlas set is well formed. -/
theorem initialAtlasSet_sinv : initialAtlasSet.SInv := by
  constructor
  · intro a ha
    rw [initialAtlasSet, List.mem_singleton] at ha
    rw [ha]
    exact Atlas.new_inv 1
  · rw [initialAtlasSet]
    simp

/-! ## Claim theorems: atlas packing (C2, C3, C4) -/

/-- C2: shelf-packing step semantics and row bound.  For every bitmap that
fits within the atlas dimensions: if `row_extent + bitmap.width >
atlas.width` the row is first closed (`row_baseline` advances by exactly
`row_tallest` — and it advances only in that case); if then the closed
row's `row_baseline + bitmap.height > atlas.height` the insertion signals
overflow; otherwise the bitmap is placed by `insert_inner` at
`(row_extent, row_baseline)` of the possibly closed row.  Moreover, over
any insertion sequence from the initial atlas set, `row_baseline` stays
nonnegative and never exceeds the atlas height in any allocated atlas. -/
theorem shelf_packing_step_and_row_bound :
    (∀ (a : Atlas) (g : RasterizedGlyph), 0 ≤ g.width → 0 ≤ g.height →
      g.width ≤ a.width → g.height ≤ a.height →
      ((a.insert g).1.row_baseline = a.row_baseline +
        (if a.row_extent + g.width > a.width then a.row_tallest else 0)) ∧
      ((if a.row_extent + g.width > a.width then
          { a with row_baseline := a.row_baseline + a.row_tallest
                   row_extent := 0, row_tallest := 0 }
        else a).row_baseline + g.height > a.height →
        a.insert g =
          ((if a.row_extent + g.width > a.width then
              { a with row_baseline := a.row_baseline + a.row_tallest
                       row_extent := 0, row_tallest := 0 }
            else a), InsertRes.full)) ∧
      ((if a.row_extent + g.width > a.width then
          { a with row_baseline := a.row_baseline + a.row_tallest
                   row_extent := 0, row_tallest := 0 }
        else a).row_baseline + g.height ≤ a.height →
        a.insert g =
          (((if a.row_extent + g.width > a.width then
              { a with row_baseline := a.row_baseline + a.row_tallest
                       row_extent := 0, row_tallest := 0 }
            else a).insert_inner g).1,
           InsertRes.ok ((if a.row_extent + g.width > a.width then
              { a with row_baseline := a.row_baseline + a.row_tallest
                       row_extent := 0, row_tallest := 0 }
            else a).insert_inner g).2))) ∧
    (∀ (gs : List RasterizedGlyph) (s : AtlasSet) (gls : List AtlasGlyph),
      (∀ g ∈ gs, 0 ≤ g.width ∧ 0 ≤ g.height) →
      AtlasSet.loadAll initialAtlasSet gs = some (s, gls) →
      ∀ a ∈ s.atlases, 0 ≤ a.row_baseline ∧ a.row_baseline ≤ a.height) := by
  constructor
  · intro a g h0 h1 hw hh
    have hC0 : ¬ (g.width > a.width ∨ g.height > a.height) := by omega
    rw [Atlas.insert_def]
    simp only [if_neg hC0, Atlas.insert_inner_fst]
    by_cases hC1 : a.row_extent + g.width > a.width
    · simp only [if_pos hC1]
      by_cases hC2 : a.row_baseline + a.row_tallest + g.height > a.height
      · simp only [if_pos hC2]
        refine ⟨?_, ?_, ?_⟩ <;>
          first
            | trivial
            | rfl
            | omega
            | (intro hx; first | rfl | omega | trivial)
      · simp only [if_neg hC2]
        refine ⟨?_, ?_, ?_⟩ <;>
          first
            | trivial
            | rfl
            | omega
            | (intro hx; first | rfl | omega | trivial)
    · simp only [if_neg hC1]
      by_cases hC2 : a.row_baseline + g.height > a.height
      · simp only [if_pos hC2]
        refine ⟨?_, ?_, ?_⟩ <;>
          first
            | trivial
            | rfl
            | omega
            | (intro hx; first | rfl | omega | trivial)
      · simp only [if_neg hC2]
        refine ⟨?_, ?_, ?_⟩ <;>
          first
            | trivial
            | rfl
            | omega
            | (intro hx; first | rfl | omega | trivial)
  · intro gs s gls hg hres
    have h := AtlasSet.loadAll_some gs initialAtlasSet initialAtlasSet_sinv
      hg s gls hres
    intro a ha
    obtain ⟨⟨_, e2, e3, e4⟩, _⟩ := h.1.1 a ha
    exact ⟨e3, by omega⟩

/-- Witness for C2: a 4×4 atlas whose current row holds a 2-wide glyph
receives a 2×2 bitmap — the row closes (baseline advances by the row's
tallest, 2) and the bitmap is placed at the new row's origin; and a
one-bitmap sequence from the initial set keeps every baseline within the
atlas height. -/
theorem shelf_packing_step_and_row_bound_witness :
    ((Atlas.mk 1 4 4 3 0 2).insert
        (RasterizedGlyph.mk 'B' 2 2 0 0 (0, 0) (BitmapBuffer.rgb [])) =
      (((Atlas.mk 1 4 4 0 2 0).insert_inner
          (RasterizedGlyph.mk 'B' 2 2 0 0 (0, 0) (BitmapBuffer.rgb []))).1,
        InsertRes.ok ((Atlas.mk 1 4 4 0 2 0).insert_inner
          (RasterizedGlyph.mk 'B' 2 2 0 0 (0, 0) (BitmapBuffer.rgb []))).2)) ∧
    (∀ a ∈ (AtlasSet.mk [Atlas.mk 1 1024 1024 2 0 2] 0 2).atlases,
      0 ≤ a.row_baseline ∧ a.row_baseline ≤ a.height) := by
  have h := shelf_packing_step_and_row_bound
  constructor
  · exact (h.1 (Atlas.mk 1 4 4 3 0 2)
      (RasterizedGlyph.mk 'B' 2 2 0 0 (0, 0) (BitmapBuffer.rgb []))
      (by decide) (by decide) (by decide) (by decide)).2.2 (by decide)
  · exact h.2 [RasterizedGlyph.mk 'A' 2 2 0 0 (0, 0) (BitmapBuffer.rgb [])]
      (AtlasSet.mk [Atlas.mk 1 1024 1024 2 0 2] 0 2)
      [AtlasGlyph.mk 1 0 0 2 2 (((0 : Int) : ℚ) / ((1024 : Int) : ℚ))
      (((0 : Int) : ℚ) / ((1024 : Int) : ℚ))
      (((2 : Int) : ℚ) / ((1024 : Int) : ℚ))
      (((2 : Int) : ℚ) / ((1024 : Int) : ℚ))]
      (by decide) (by rfl)

/-- C3: UV validity — every packed glyph produced over any sequence of
insertions from the initial atlas set has a normalized UV rectangle with
`0 ≤ uv_left`, `0 ≤ uv_bot`, `uv_left + uv_width ≤ 1` and
`uv_bot + uv_height ≤ 1`, i.e. it lies entirely inside its texture. -/
theorem uv_validity (gs : List RasterizedGlyph) (s : AtlasSet)
    (gls : List AtlasGlyph)
    (hg : ∀ g ∈ gs, 0 ≤ g.width ∧ 0 ≤ g.height)
    (hres : AtlasSet.loadAll initialAtlasSet gs = some (s, gls)) :
    ∀ gl ∈ gls, 0 ≤ gl.uv_left ∧ 0 ≤ gl.uv_bot ∧
      gl.uv_left + gl.uv_width ≤ 1 ∧ gl.uv_bot + gl.uv_height ≤ 1 :=
  (AtlasSet.loadAll_some gs initialAtlasSet initialAtlasSet_sinv
    hg s gls hres).2

/-- Witness for C3 at a concrete one-bitmap insertion sequence. -/
theorem uv_validity_witness :
    0 ≤ (AtlasGlyph.mk 1 0 0 2 2
      (((0 : Int) : ℚ) / ((1024 : Int) : ℚ))
      (((0 : Int) : ℚ) / ((1024 : Int) : ℚ))
      (((2 : Int) : ℚ) / ((1024 : Int) : ℚ))
      (((2 : Int) : ℚ) / ((1024 : Int) : ℚ))).uv_left ∧
    0 ≤ (AtlasGlyph.mk 1 0 0 2 2
      (((0 : Int) : ℚ) / ((1024 : Int) : ℚ))
      (((0 : Int) : ℚ) / ((1024 : Int) : ℚ))
      (((2 : Int) : ℚ) / ((1024 : Int) : ℚ))
      (((2 : Int) : ℚ) / ((1024 : Int) : ℚ))).uv_bot ∧
    (AtlasGlyph.mk 1 0 0 2 2
      (((0 : Int) : ℚ) / ((1024 : Int) : ℚ))
      (((0 : Int) : ℚ) / ((1024 : Int) : ℚ))
      (((2 : Int) : ℚ) / ((1024 : Int) : ℚ))
      (((2 : Int) : ℚ) / ((1024 : Int) : ℚ))).uv_left +
      (AtlasGlyph.mk 1 0 0 2 2
        (((0 : Int) : ℚ) / ((1024 : Int) : ℚ))
        (((0 : Int) : ℚ) / ((1024 : Int) : ℚ))
        (((2 : Int) : ℚ) / ((1024 : Int) : ℚ))
        (((2 : Int) : ℚ) / ((1024 : Int) : ℚ))).uv_width ≤ 1 ∧
    (AtlasGlyph.mk 1 0 0 2 2
      (((0 : Int) : ℚ) / ((1024 : Int) : ℚ))
      (((0 : Int) : ℚ) / ((1024 : Int) : ℚ))
      (((2 : Int) : ℚ) / ((1024 : Int) : ℚ))
      (((2 : Int) : ℚ) / ((1024 : Int) : ℚ))).uv_bot +
      (AtlasGlyph.mk 1 0 0 2 2
        (((0 : Int) : ℚ) / ((1024 : Int) : ℚ))
        (((0 : Int) : ℚ) / ((1024 : Int) : ℚ))
        (((2 : Int) : ℚ) / ((1024 : Int) : ℚ))
        (((2 : Int) : ℚ) / ((1024 : Int) : ℚ))).uv_height ≤ 1 :=
  uv_validity [RasterizedGlyph.mk 'A' 2 2 0 0 (0, 0) (BitmapBuffer.rgb [])]
    (AtlasSet.mk [Atlas.mk 1 1024 1024 2 0 2] 0 2)
    [AtlasGlyph.mk 1 0 0 2 2 (((0 : Int) : ℚ) / ((1024 : Int) : ℚ))
      (((0 : Int) : ℚ) / ((1024 : Int) : ℚ))
      (((2 : Int) : ℚ) / ((1024 : Int) : ℚ))
      (((2 : Int) : ℚ) / ((1024 : Int) : ℚ))]
    (by decide) (by rfl) _ (List.mem_singleton.mpr rfl)

/-- C4: atlas overflow recovery — when the current atlas signals overflow
for a bitmap that itself fits within the atlas dimensions, `load_glyph`
appends exactly one brand-new atlas, makes it current, retries once, and
the retry succeeds (overflow is never surfaced); all other atlases are
untouched, the overflowed atlas keeps its identity and dimensions, and
the returned glyph lives in the fresh texture. -/
theorem atlas_overflow_recovery (s : AtlasSet) (g : RasterizedGlyph)
    (a0 : Atlas) (hs : s.SInv)
    (h0 : 0 ≤ g.width) (hw : g.width ≤ ATLAS_SIZE)
    (h1 : 0 ≤ g.height) (hh : g.height ≤ ATLAS_SIZE)
    (ha0 : s.atlases[s.current]? = some a0)
    (hfull : (a0.insert g).2 = InsertRes.full) :
    ∃ s' gl, s.load_glyph g = some (s', gl) ∧
      s'.atlases.length = s.atlases.length + 1 ∧
      s'.current = s.atlases.length ∧
      gl.tex_id = s.next_id ∧
      (∀ i, i < s.atlases.length → i ≠ s.current →
        s'.atlases[i]? = s.atlases[i]?) ∧
      (∃ a1, s'.atlases[s.current]? = some a1 ∧ a1.id = a0.id ∧
        a1.width = a0.width ∧ a1.height = a0.height) ∧
      (∃ f, s'.atlases[s'.current]? = some f ∧ f.id = s.next_id ∧
        f.width = ATLAS_SIZE ∧ f.height = ATLAS_SIZE) := by
  obtain ⟨hmem, hcur⟩ := hs
  have hamem : a0 ∈ s.atlases := by
    have := List.getElem?_eq_getElem hcur
    rw [this] at ha0
    rw [← Option.some_inj.mp ha0]
    exact List.getElem_mem hcur
  obtain ⟨ha0inv, _⟩ := hmem a0 hamem
  obtain ⟨a1, hins⟩ : ∃ a1, a0.insert g = (a1, InsertRes.full) :=
    ⟨(a0.insert g).1, by rw [← hfull]⟩
  have hfi := Atlas.insert_fst_inv a0 g ha0inv h0 h1
  rw [hins] at hfi
  have hfresh := Atlas.new_insert_ok s.next_id g hw hh
  refine ⟨AtlasSet.mk ((s.atlases.set s.current a1) ++
      [((Atlas.new s.next_id ATLAS_SIZE).insert_inner g).1])
      (s.atlases.set s.current a1).length (s.next_id + 1),
    ((Atlas.new s.next_id ATLAS_SIZE).insert_inner g).2,
    ?_, ?_, ?_, ?_, ?_, ?_, ?_⟩
  · unfold AtlasSet.load_glyph
    rw [ha0]
    simp only [hins, hfresh]
  · simp
  · simp
  · rfl
  · intro i hi hne
    show ((s.atlases.set s.current a1) ++
      [((Atlas.new s.next_id ATLAS_SIZE).insert_inner g).1])[i]? =
      s.atlases[i]?
    rw [List.getElem?_append, if_pos (by simpa using hi)]
    exact List.getElem?_set_ne (fun hcontra => hne hcontra.symm)
  · refine ⟨a1, ?_, hfi.2.1, hfi.2.2.1, hfi.2.2.2⟩
    show ((s.atlases.set s.current a1) ++
      [((Atlas.new s.next_id ATLAS_SIZE).insert_inner g).1])[s.current]? =
      some a1
    rw [List.getElem?_append, if_pos (by simpa using hcur)]
    exact List.getElem?_set_eq_of_lt a1 hcur
  · refine ⟨((Atlas.new s.next_id ATLAS_SIZE).insert_inner g).1, ?_,
      rfl, rfl, rfl⟩
    show ((s.atlases.set s.current a1) ++
      [((Atlas.new s.next_id ATLAS_SIZE).insert_inner g).1])[
        (s.atlases.set s.current a1).length]? = _
    exact List.getElem?_concat_length _ _

/-- Witness for C4: a full atlas (baseline at the bottom) receives a 2×2
bitmap, which recovers by allocating texture 5 and packing there. -/
theorem atlas_overflow_recovery_witness :
    ∃ s' gl,
      (AtlasSet.mk [Atlas.mk 3 1024 1024 0 1024 0] 0 5).load_glyph
        (RasterizedGlyph.mk 'C' 2 2 0 0 (0, 0) (BitmapBuffer.rgb [])) =
        some (s', gl) ∧
      s'.atlases.length = 2 ∧ s'.current = 1 ∧ gl.tex_id = 5 ∧
      (∀ i, i < 1 → i ≠ 0 →
        s'.atlases[i]? =
          (AtlasSet.mk [Atlas.mk 3 1024 1024 0 1024 0] 0 5).atlases[i]?) ∧
      (∃ a1, s'.atlases[0]? = some a1 ∧ a1.id = 3 ∧
        a1.width = 1024 ∧ a1.height = 1024) ∧
      (∃ f, s'.atlases[s'.current]? = some f ∧ f.id = 5 ∧
        f.width = ATLAS_SIZE ∧ f.height = ATLAS_SIZE) := by
  have h := atlas_overflow_recovery
    (AtlasSet.mk [Atlas.mk 3 1024 1024 0 1024 0] 0 5)
    (RasterizedGlyph.mk 'C' 2 2 0 0 (0, 0) (BitmapBuffer.rgb []))
    (Atlas.mk 3 1024 1024 0 1024 0)
    (by
      refine ⟨?_, by decide⟩
      intro a ha
      rw [List.mem_singleton] at ha
      subst ha
      unfold Atlas.Inv Atlas.StdDims
      decide)
    (by decide) (by decide) (by decide) (by decide) (by decide) (by decide)
  obtain ⟨s', gl, h1, h2, h3, h4, h5, h6, h7⟩ := h
  exact ⟨s', gl, h1, h2, h3, h4, h5, h6, h7⟩

/-! ## Glyph-cache lemmas -/

theorem CacheMap.insert_self (c : CacheMap) (k : GlyphKey) (g : Glyph) :
    c.insert k g k = some g := by
  unfold CacheMap.insert
  simp

theorem CacheMap.insert_ne (c : CacheMap) (k k' : GlyphKey) (g : Glyph)
    (h : k' ≠ k) : c.insert k g k' = c k' := by
  unfold CacheMap.insert
  simp [h]

theorem GlyphCache.finishGet_cache_self {σ : Type} (c : CacheMap) (ld : σ)
    (g : Glyph) (n : Nat) (k : GlyphKey) :
    (GlyphCache.finishGet c ld g n k).cache k =
      some (GlyphCache.finishGet c ld g n k).glyph := by
  unfold GlyphCache.finishGet CacheMap.orInsert
  cases h : c k with
  | some old => simp [h]
  | none => simp [h, CacheMap.insert_self]

theorem GlyphCache.finishGet_preserves {σ : Type} (c : CacheMap) (ld : σ)
    (g : Glyph) (n : Nat) (k k' : GlyphKey) (g' : Glyph)
    (h : c k' = some g') :
    (GlyphCache.finishGet c ld g n k).cache k' = some g' := by
  unfold GlyphCache.finishGet CacheMap.orInsert
  cases hk : c k with
  | some old => simpa [hk] using h
  | none =>
    have hne : k' ≠ k := by
      intro he
      rw [he, hk] at h
      exact Option.noConfusion h
    simp [hk, CacheMap.insert_ne c k k' g hne, h]

theorem GlyphCache.finishGet_untouched {σ : Type} (c : CacheMap) (ld : σ)
    (g : Glyph) (n : Nat) (k k' : GlyphKey) (h : k' ≠ k) :
    (GlyphCache.finishGet c ld g n k).cache k' = c k' := by
  unfold GlyphCache.finishGet CacheMap.orInsert
  cases hk : c k with
  | some old => simp [hk]
  | none => simp [hk, CacheMap.insert_ne c k k' g h]

theorem GlyphCache.finishGet_fields {σ : Type} (c : CacheMap) (ld : σ)
    (g : Glyph) (n : Nat) (k : GlyphKey) :
    (GlyphCache.finishGet c ld g n k).ld = ld ∧
    (GlyphCache.finishGet c ld g n k).rasterKeys = [k] ∧
    (GlyphCache.finishGet c ld g n k).loads = n := by
  unfold GlyphCache.finishGet CacheMap.orInsert
  cases hk : c k <;> simp [hk]

theorem GlyphCache.get_hit {σ : Type} (metrics : Metrics)
    (cw : Char → Option Nat) (raster : GlyphKey → RasterResult)
    (ops : LoadGlyphOps σ) (cache : CacheMap) (ld : σ) (k : GlyphKey)
    (sm : Bool) (g : Glyph) (h : cache k = some g) :
    GlyphCache.get metrics cw raster ops cache ld k sm =
      ⟨cache, ld, g, [], 0⟩ := by
  unfold GlyphCache.get
  simp [h]

/-- C10 core: after any `get`, the cache holds the returned glyph under the
requested key. -/
theorem GlyphCache.get_cache_self {σ : Type} (metrics : Metrics)
    (cw : Char → Option Nat) (raster : GlyphKey → RasterResult)
    (ops : LoadGlyphOps σ) (cache : CacheMap) (ld : σ) (k : GlyphKey)
    (sm : Bool) :
    (GlyphCache.get metrics cw raster ops cache ld k sm).cache k =
      some (GlyphCache.get metrics cw raster ops cache ld k sm).glyph := by
  unfold GlyphCache.get
  cases h : cache k with
  | some g => simp [h]
  | none =>
    cases hr : raster k with
    | ok r => exact GlyphCache.finishGet_cache_self _ _ _ _ _
    | missingGlyph r =>
      cases sm with
      | false => exact GlyphCache.finishGet_cache_self _ _ _ _ _
      | true =>
        cases hm : cache { k with character := sentinelChar } with
        | some g2 => exact GlyphCache.finishGet_cache_self _ _ _ _ _
        | none => exact GlyphCache.finishGet_cache_self _ _ _ _ _
    | err => exact GlyphCache.finishGet_cache_self _ _ _ _ _

/-- Existing cache entries survive any `get`: the cache only ever gains
entries, it never overwrites one. -/
theorem GlyphCache.get_preserves {σ : Type} (metrics : Metrics)
    (cw : Char → Option Nat) (raster : GlyphKey → RasterResult)
    (ops : LoadGlyphOps σ) (cache : CacheMap) (ld : σ) (k : GlyphKey)
    (sm : Bool) (k' : GlyphKey) (g' : Glyph) (h : cache k' = some g') :
    (GlyphCache.get metrics cw raster ops cache ld k sm).cache k' =
      some g' := by
  unfold GlyphCache.get
  cases hk : cache k with
  | some g => simpa [hk] using h
  | none =>
    cases hr : raster k with
    | ok r => exact GlyphCache.finishGet_preserves _ _ _ _ _ _ _ h
    | missingGlyph r =>
      cases sm with
      | false => exact GlyphCache.finishGet_preserves _ _ _ _ _ _ _ h
      | true =>
        cases hm : cache { k with character := sentinelChar } with
        | some g2 => exact GlyphCache.finishGet_preserves _ _ _ _ _ _ _ h
        | none =>
          refine GlyphCache.finishGet_preserves _ _ _ _ _ _ _ ?_
          have hne : k' ≠ { k with character := sentinelChar } := by
            intro he
            rw [he, hm] at h
            exact Option.noConfusion h
          rw [CacheMap.insert_ne _ _ _ _ hne]
          exact h
    | err => exact GlyphCache.finishGet_preserves _ _ _ _ _ _ _ h

/-- A `get` for key `k` leaves every key other than `k` and the sentinel
variant of `k` untouched. -/
theorem GlyphCache.get_untouched {σ : Type} (metrics : Metrics)
    (cw : Char → Option Nat) (raster : GlyphKey → RasterResult)
    (ops : LoadGlyphOps σ) (cache : CacheMap) (ld : σ) (k : GlyphKey)
    (sm : Bool) (k' : GlyphKey) (hne : k' ≠ k)
    (hns : k' ≠ { k with character := sentinelChar }) :
    (GlyphCache.get metrics cw raster ops cache ld k sm).cache k' =
      cache k' := by
  unfold GlyphCache.get
  cases hk : cache k with
  | some g => simp [hk]
  | none =>
    cases hr : raster k with
    | ok r => exact GlyphCache.finishGet_untouched _ _ _ _ _ _ hne
    | missingGlyph r =>
      cases sm with
      | false => exact GlyphCache.finishGet_untouched _ _ _ _ _ _ hne
      | true =>
        cases hm : cache { k with character := sentinelChar } with
        | some g2 => exact GlyphCache.finishGet_untouched _ _ _ _ _ _ hne
        | none =>
          exact (GlyphCache.finishGet_untouched
            (cache.insert { k with character := sentinelChar }
              (GlyphCache.load_glyph metrics cw ops ld r).2)
            (GlyphCache.load_glyph metrics cw ops ld r).1
            (GlyphCache.load_glyph metrics cw ops ld r).2 1 k k' hne).trans
            (CacheMap.insert_ne _ _ _ _ hns)
    | err => exact GlyphCache.finishGet_untouched _ _ _ _ _ _ hne

/-- A `get` queries the rasterizer exactly on a cache miss, and then with
the requested key only. -/
theorem GlyphCache.get_rasterKeys {σ : Type} (metrics : Metrics)
    (cw : Char → Option Nat) (raster : GlyphKey → RasterResult)
    (ops : LoadGlyphOps σ) (cache : CacheMap) (ld : σ) (k : GlyphKey)
    (sm : Bool) :
    (GlyphCache.get metrics cw raster ops cache ld k sm).rasterKeys =
      if cache k = none then [k] else [] := by
  unfold GlyphCache.get
  cases hk : cache k with
  | some g => simp [hk]
  | none =>
    simp only [hk, if_pos rfl]
    cases hr : raster k with
    | ok r => exact (GlyphCache.finishGet_fields _ _ _ _ _).2.1
    | missingGlyph r =>
      cases sm with
      | false => exact (GlyphCache.finishGet_fields _ _ _ _ _).2.1
      | true =>
        cases hm : cache { k with character := sentinelChar } with
        | some g2 => exact (GlyphCache.finishGet_fields _ _ _ _ _).2.1
        | none => exact (GlyphCache.finishGet_fields _ _ _ _ _).2.1
    | err => exact (GlyphCache.finishGet_fields _ _ _ _ _).2.1

theorem GlyphCache.get_ok_eq {σ : Type} (metrics : Metrics)
    (cw : Char → Option Nat) (raster : GlyphKey → RasterResult)
    (ops : LoadGlyphOps σ) (cache : CacheMap) (ld : σ) (k : GlyphKey)
    (sm : Bool) (r : RasterizedGlyph) (h : cache k = none)
    (hr : raster k = RasterResult.ok r) :
    GlyphCache.get metrics cw raster ops cache ld k sm =
      GlyphCache.finishGet cache
        (GlyphCache.load_glyph metrics cw ops ld r).1
        (GlyphCache.load_glyph metrics cw ops ld r).2 1 k := by
  unfold GlyphCache.get
  rw [h, hr]

theorem GlyphCache.get_err_eq {σ : Type} (metrics : Metrics)
    (cw : Char → Option Nat) (raster : GlyphKey → RasterResult)
    (ops : LoadGlyphOps σ) (cache : CacheMap) (ld : σ) (k : GlyphKey)
    (sm : Bool) (h : cache k = none) (hr : raster k = RasterResult.err) :
    GlyphCache.get metrics cw raster ops cache ld k sm =
      GlyphCache.finishGet cache
        (GlyphCache.load_glyph metrics cw ops ld RasterizedGlyph.default).1
        (GlyphCache.load_glyph metrics cw ops ld RasterizedGlyph.default).2
        1 k := by
  unfold GlyphCache.get
  rw [h, hr]

theorem GlyphCache.get_missing_nosm_eq {σ : Type} (metrics : Metrics)
    (cw : Char → Option Nat) (raster : GlyphKey → RasterResult)
    (ops : LoadGlyphOps σ) (cache : CacheMap) (ld : σ) (k : GlyphKey)
    (r : RasterizedGlyph) (h : cache k = none)
    (hr : raster k = RasterResult.missingGlyph r) :
    GlyphCache.get metrics cw raster ops cache ld k false =
      GlyphCache.finishGet cache
        (GlyphCache.load_glyph metrics cw ops ld RasterizedGlyph.default).1
        (GlyphCache.load_glyph metrics cw ops ld RasterizedGlyph.default).2
        1 k := by
  unfold GlyphCache.get
  rw [h, hr]
  rfl

theorem GlyphCache.get_missing_sm_hit_eq {σ : Type} (metrics : Metrics)
    (cw : Char → Option Nat) (raster : GlyphKey → RasterResult)
    (ops : LoadGlyphOps σ) (cache : CacheMap) (ld : σ) (k : GlyphKey)
    (r : RasterizedGlyph) (g2 : Glyph) (h : cache k = none)
    (hr : raster k = RasterResult.missingGlyph r)
    (hm : cache { k with character := sentinelChar } = some g2) :
    GlyphCache.get metrics cw raster ops cache ld k true =
      GlyphCache.finishGet cache ld g2 0 k := by
  unfold GlyphCache.get
  rw [h, hr]
  simp only [hm]
  rfl

theorem GlyphCache.get_missing_sm_miss_eq {σ : Type} (metrics : Metrics)
    (cw : Char → Option Nat) (raster : GlyphKey → RasterResult)
    (ops : LoadGlyphOps σ) (cache : CacheMap) (ld : σ) (k : GlyphKey)
    (r : RasterizedGlyph) (h : cache k = none)
    (hr : raster k = RasterResult.missingGlyph r)
    (hm : cache { k with character := sentinelChar } = none) :
    GlyphCache.get metrics cw raster ops cache ld k true =
      GlyphCache.finishGet
        (cache.insert { k with character := sentinelChar }
          (GlyphCache.load_glyph metrics cw ops ld r).2)
        (GlyphCache.load_glyph metrics cw ops ld r).1
        (GlyphCache.load_glyph metrics cw ops ld r).2 1 k := by
  unfold GlyphCache.get
  rw [h, hr]
  simp only [hm]
  rfl

theorem resultsFor_cons (k k' : GlyphKey) (sm : Bool)
    (rs : List (GlyphKey × Bool)) (g : Glyph) (gs : List Glyph) :
    resultsFor k ((k', sm) :: rs) (g :: gs) =
      (if k' = k then [g] else []) ++ resultsFor k rs gs := rfl

theorem runGets_results_cons {σ : Type} (metrics : Metrics)
    (cw : Char → Option Nat) (raster : GlyphKey → RasterResult)
    (ops : LoadGlyphOps σ) (cache : CacheMap) (ld : σ) (k : GlyphKey)
    (sm : Bool) (rest : List (GlyphKey × Bool)) :
    (runGets metrics cw raster ops cache ld ((k, sm) :: rest)).results =
      (GlyphCache.get metrics cw raster ops cache ld k sm).glyph ::
        (runGets metrics cw raster ops
          (GlyphCache.get metrics cw raster ops cache ld k sm).cache
          (GlyphCache.get metrics cw raster ops cache ld k sm).ld
          rest).results := rfl

theorem runGets_rasterKeys_cons {σ : Type} (metrics : Metrics)
    (cw : Char → Option Nat) (raster : GlyphKey → RasterResult)
    (ops : LoadGlyphOps σ) (cache : CacheMap) (ld : σ) (k : GlyphKey)
    (sm : Bool) (rest : List (GlyphKey × Bool)) :
    (runGets metrics cw raster ops cache ld ((k, sm) :: rest)).rasterKeys =
      (GlyphCache.get metrics cw raster ops cache ld k sm).rasterKeys ++
        (runGets metrics cw raster ops
          (GlyphCache.get metrics cw raster ops cache ld k sm).cache
          (GlyphCache.get metrics cw raster ops cache ld k sm).ld
          rest).rasterKeys := rfl

theorem runGets_loads_cons {σ : Type} (metrics : Metrics)
    (cw : Char → Option Nat) (raster : GlyphKey → RasterResult)
    (ops : LoadGlyphOps σ) (cache : CacheMap) (ld : σ) (k : GlyphKey)
    (sm : Bool) (rest : List (GlyphKey × Bool)) :
    (runGets metrics cw raster ops cache ld ((k, sm) :: rest)).loads =
      (GlyphCache.get metrics cw raster ops cache ld k sm).loads +
        (runGets metrics cw raster ops
          (GlyphCache.get metrics cw raster ops cache ld k sm).cache
          (GlyphCache.get metrics cw raster ops cache ld k sm).ld
          rest).loads := rfl

theorem runGets_cache_preserves {σ : Type} (metrics : Metrics)
    (cw : Char → Option Nat) (raster : GlyphKey → RasterResult)
    (ops : LoadGlyphOps σ) (reqs : List (GlyphKey × Bool)) :
    ∀ (cache : CacheMap) (ld : σ) (k : GlyphKey) (g : Glyph),
      cache k = some g →
      (runGets metrics cw raster ops cache ld reqs).cache k = some g := by
  induction reqs with
  | nil => intro cache ld k g h; exact h
  | cons p rest ih =>
    intro cache ld k g h
    obtain ⟨k', sm⟩ := p
    exact ih _ _ _ _
      (GlyphCache.get_preserves metrics cw raster ops cache ld k' sm k g h)

theorem runGets_results_of_cached {σ : Type} (metrics : Metrics)
    (cw : Char → Option Nat) (raster : GlyphKey → RasterResult)
    (ops : LoadGlyphOps σ) (reqs : List (GlyphKey × Bool)) :
    ∀ (cache : CacheMap) (ld : σ) (k : GlyphKey) (g : Glyph),
      cache k = some g →
      ∀ x ∈ resultsFor k reqs
        (runGets metrics cw raster ops cache ld reqs).results, x = g := by
  induction reqs with
  | nil =>
    intro cache ld k g _ x hx
    simp [resultsFor] at hx
  | cons p rest ih =>
    intro cache ld k g h x hx
    obtain ⟨k', sm⟩ := p
    rw [runGets_results_cons, resultsFor_cons] at hx
    rcases List.mem_append.mp hx with h1 | h1
    · by_cases hk' : k' = k
      · rw [if_pos hk'] at h1
        rw [List.mem_singleton.mp h1]
        subst hk'
        rw [GlyphCache.get_hit metrics cw raster ops cache ld k' sm g h]
      · rw [if_neg hk'] at h1
        exact absurd h1 (List.not_mem_nil x)
    · exact ih _ _ _ _
        (GlyphCache.get_preserves metrics cw raster ops cache ld k' sm k g h)
        x h1

theorem runGets_results_agree {σ : Type} (metrics : Metrics)
    (cw : Char → Option Nat) (raster : GlyphKey → RasterResult)
    (ops : LoadGlyphOps σ) (reqs : List (GlyphKey × Bool)) :
    ∀ (cache : CacheMap) (ld : σ) (k : GlyphKey),
      ∃ g, ∀ x ∈ resultsFor k reqs
        (runGets metrics cw raster ops cache ld reqs).results, x = g := by
  induction reqs with
  | nil =>
    intro cache ld k
    refine ⟨Glyph.mk 0 false 0 0 0 0 0 0 0 0, ?_⟩
    intro x hx
    simp [resultsFor] at hx
  | cons p rest ih =>
    intro cache ld k
    obtain ⟨k', sm⟩ := p
    by_cases hk' : k' = k
    · refine ⟨(GlyphCache.get metrics cw raster ops cache ld k' sm).glyph, ?_⟩
      intro x hx
      rw [runGets_results_cons, resultsFor_cons] at hx
      rcases List.mem_append.mp hx with h1 | h1
      · rw [if_pos hk'] at h1
        exact List.mem_singleton.mp h1
      · subst hk'
        exact runGets_results_of_cached metrics cw raster ops rest _ _ _ _
          (GlyphCache.get_cache_self metrics cw raster ops cache ld k' sm)
          x h1
    · obtain ⟨g, hg⟩ := ih
        (GlyphCache.get metrics cw raster ops cache ld k' sm).cache
        (GlyphCache.get metrics cw raster ops cache ld k' sm).ld k
      refine ⟨g, ?_⟩
      intro x hx
      rw [runGets_results_cons, resultsFor_cons, if_neg hk'] at hx
      exact hg x (by simpa using hx)

theorem runGets_count_of_cached {σ : Type} (metrics : Metrics)
    (cw : Char → Option Nat) (raster : GlyphKey → RasterResult)
    (ops : LoadGlyphOps σ) (reqs : List (GlyphKey × Bool)) :
    ∀ (cache : CacheMap) (ld : σ) (k : GlyphKey) (g : Glyph),
      cache k = some g →
      ((runGets metrics cw raster ops cache ld reqs).rasterKeys).count k =
        0 := by
  induction reqs with
  | nil => intro cache ld k g _; rfl
  | cons p rest ih =>
    intro cache ld k g h
    obtain ⟨k', sm⟩ := p
    rw [runGets_rasterKeys_cons, List.count_append,
      GlyphCache.get_rasterKeys metrics cw raster ops cache ld k' sm,
      ih _ _ _ _
        (GlyphCache.get_preserves metrics cw raster ops cache ld k' sm k g h),
      Nat.add_zero]
    by_cases hk' : k' = k
    · subst hk'
      rw [h]
      rfl
    · split
      · rw [List.count_singleton']
        rw [if_neg hk']
      · rfl

theorem runGets_count_le {σ : Type} (metrics : Metrics)
    (cw : Char → Option Nat) (raster : GlyphKey → RasterResult)
    (ops : LoadGlyphOps σ) (reqs : List (GlyphKey × Bool)) :
    ∀ (cache : CacheMap) (ld : σ) (k : GlyphKey),
      ((runGets metrics cw raster ops cache ld reqs).rasterKeys).count k ≤
        1 := by
  induction reqs with
  | nil => intro cache ld k; exact Nat.zero_le 1
  | cons p rest ih =>
    intro cache ld k
    obtain ⟨k', sm⟩ := p
    rw [runGets_rasterKeys_cons, List.count_append,
      GlyphCache.get_rasterKeys metrics cw raster ops cache ld k' sm]
    by_cases hk' : k' = k
    · subst hk'
      cases hc : cache k' with
      | some g =>
        have h0 : (if (some g : Option Glyph) = none then [k'] else []) =
            ([] : List GlyphKey) := by simp
        rw [h0]
        simpa using ih _ _ k'
      | none =>
        have h0 : (if (none : Option Glyph) = none then [k'] else []) =
            [k'] := by simp
        rw [h0,
          runGets_count_of_cached metrics cw raster ops rest _ _ _ _
            (GlyphCache.get_cache_self metrics cw raster ops cache ld
              k' sm),
          List.count_singleton', if_pos rfl]
    · have hz : ((if cache k' = none then [k'] else []) :
          List GlyphKey).count k = 0 := by
        split
        · rw [List.count_singleton', if_neg hk']
        · rfl
      rw [hz, Nat.zero_add]
      exact ih _ _ k

theorem runGets_count_exact {σ : Type} (metrics : Metrics)
    (cw : Char → Option Nat) (raster : GlyphKey → RasterResult)
    (ops : LoadGlyphOps σ) (reqs : List (GlyphKey × Bool)) :
    ∀ (cache : CacheMap) (ld : σ) (k : GlyphKey),
      k.character ≠ sentinelChar → cache k = none →
      ((runGets metrics cw raster ops cache ld reqs).rasterKeys).count k =
        if k ∈ reqs.map Prod.fst then 1 else 0 := by
  induction reqs with
  | nil =>
    intro cache ld k _ _
    simp
    rfl
  | cons p rest ih =>
    intro cache ld k hchar hnone
    obtain ⟨k', sm⟩ := p
    rw [runGets_rasterKeys_cons, List.count_append,
      GlyphCache.get_rasterKeys metrics cw raster ops cache ld k' sm]
    by_cases hk' : k' = k
    · subst hk'
      rw [hnone, if_pos rfl,
        runGets_count_of_cached metrics cw raster ops rest _ _ _ _
          (GlyphCache.get_cache_self metrics cw raster ops cache ld k' sm),
        List.count_singleton', if_pos rfl,
        if_pos (by simp)]
    · have hz : ((if cache k' = none then [k'] else []) :
          List GlyphKey).count k = 0 := by
        split
        · rw [List.count_singleton', if_neg hk']
        · rfl
      have hne2 : k ≠ { k' with character := sentinelChar } := by
        intro he
        apply hchar
        rw [he]
      have huntouched := GlyphCache.get_untouched metrics cw raster ops
        cache ld k' sm k (fun he => hk' he.symm) hne2
      rw [hz, Nat.zero_add, ih _ _ k hchar (huntouched.trans hnone)]
      have hiff : (k ∈ rest.map Prod.fst) ↔
          (k ∈ ((k', sm) :: rest).map Prod.fst) := by
        simp only [List.map_cons, List.mem_cons]
        constructor
        · intro hin
          exact Or.inr hin
        · intro hor
          rcases hor with hor | hor
          · exact absurd hor.symm hk'
          · exact hor
      exact if_congr hiff rfl rfl

theorem GlyphKey.ne_of_char (a b : GlyphKey)
    (h : a.character ≠ b.character) : a ≠ b := by
  intro he
  rw [he] at h
  exact h rfl

theorem GlyphCache.finishGet_glyph_miss {σ : Type} (c : CacheMap) (ld : σ)
    (g : Glyph) (n : Nat) (k : GlyphKey) (hc : c k = none) :
    (GlyphCache.finishGet c ld g n k).glyph = g := by
  unfold GlyphCache.finishGet CacheMap.orInsert
  simp [hc]

theorem GlyphCache.finishGet_cache_eq_miss {σ : Type} (c : CacheMap)
    (ld : σ) (g : Glyph) (n : Nat) (k : GlyphKey) (hc : c k = none) :
    (GlyphCache.finishGet c ld g n k).cache = c.insert k g := by
  unfold GlyphCache.finishGet CacheMap.orInsert
  simp [hc]

/-- The metric corrections of `GlyphCache::load_glyph` in closed form: the
loader is called on the bitmap with `top` lowered by the descent and, for
zero-width characters, `left` raised by the average advance. -/
theorem GlyphCache.load_glyph_eq {σ : Type} (metrics : Metrics)
    (cw : Char → Option Nat) (ops : LoadGlyphOps σ) (ld : σ)
    (r : RasterizedGlyph) :
    GlyphCache.load_glyph metrics cw ops ld r =
      ops.load_glyph ld
        { r with top := r.top - metrics.descent
                 left := r.left + (if cw r.character = some 0 then
                   metrics.average_advance else 0) } := by
  unfold GlyphCache.load_glyph
  by_cases hcw : cw r.character = some 0 <;> simp [hcw]

theorem Glsl3Renderer.add_item_length (b : RBatch) (c : RenderableCell)
    (g : AtlasGlyph) :
    (Glsl3Renderer.add_item b c g).instances.length =
      b.instances.length + 1 := by
  unfold Glsl3Renderer.add_item
  split <;> simp

theorem Glsl3Renderer.add_item_tex_empty (b : RBatch) (c : RenderableCell)
    (g : AtlasGlyph) (h : b.instances = []) :
    (Glsl3Renderer.add_item b c g).tex = g.tex_id := by
  unfold Glsl3Renderer.add_item
  rw [if_pos (by rw [h]; rfl)]

theorem Glsl3Renderer.add_item_tex_nonempty (b : RBatch)
    (c : RenderableCell) (g : AtlasGlyph) (h : b.instances ≠ []) :
    (Glsl3Renderer.add_item b c g).tex = b.tex := by
  unfold Glsl3Renderer.add_item
  rw [if_neg (by simpa using h)]

theorem Glsl3Renderer.add_item_nonempty (b : RBatch) (c : RenderableCell)
    (g : AtlasGlyph) : (Glsl3Renderer.add_item b c g).instances ≠ [] := by
  intro h
  have := Glsl3Renderer.add_item_length b c g
  rw [h] at this
  simp at this

theorem Glsl3Renderer.draw_cells_loop_length
    (ps : List (RenderableCell × AtlasGlyph)) :
    ∀ b : RBatch, (Glsl3Renderer.draw_cells_loop b ps).instances.length =
      b.instances.length + ps.length := by
  induction ps with
  | nil => intro b; rfl
  | cons p rest ih =>
    intro b
    obtain ⟨c, g⟩ := p
    show (Glsl3Renderer.draw_cells_loop
      (Glsl3Renderer.add_item b c g) rest).instances.length = _
    rw [ih, Glsl3Renderer.add_item_length]
    simp
    omega

theorem Glsl3Renderer.draw_cells_loop_tex
    (ps : List (RenderableCell × AtlasGlyph)) :
    ∀ b : RBatch, b.instances ≠ [] →
      (Glsl3Renderer.draw_cells_loop b ps).tex = b.tex := by
  induction ps with
  | nil => intro b _; rfl
  | cons p rest ih =>
    intro b hb
    obtain ⟨c, g⟩ := p
    show (Glsl3Renderer.draw_cells_loop
      (Glsl3Renderer.add_item b c g) rest).tex = b.tex
    rw [ih _ (Glsl3Renderer.add_item_nonempty b c g),
      Glsl3Renderer.add_item_tex_nonempty b c g hb]

/-! ## Claim theorems: glyph cache (C1, C5, C6, C8, C9, C10) -/

/-- C10: after every call to `get`, the cache contains an entry under the
original key whose value equals the returned glyph — on every path — and
consequently a call on an uncached key strictly grows the cache at that
key. -/
theorem cache_entry_after_get {σ : Type} (metrics : Metrics)
    (cw : Char → Option Nat) (raster : GlyphKey → RasterResult)
    (ops : LoadGlyphOps σ) (cache : CacheMap) (ld : σ) (k : GlyphKey)
    (sm : Bool) :
    (GlyphCache.get metrics cw raster ops cache ld k sm).cache k =
      some (GlyphCache.get metrics cw raster ops cache ld k sm).glyph ∧
    (cache k = none →
      cache k ≠ (GlyphCache.get metrics cw raster ops cache ld k sm).cache
        k) := by
  refine ⟨GlyphCache.get_cache_self metrics cw raster ops cache ld k sm, ?_⟩
  intro h0 heq
  rw [GlyphCache.get_cache_self metrics cw raster ops cache ld k sm] at heq
  rw [h0] at heq
  exact Option.noConfusion heq

/-- Witness for C10 at a concrete rasterizer, loader and key. -/
theorem cache_entry_after_get_witness :
    (GlyphCache.get (Metrics.mk 7 (-3)) (fun _ => some 1)
        (fun _ => RasterResult.ok
          (RasterizedGlyph.mk 'A' 1 1 2 3 (1, 0) (BitmapBuffer.rgb [1])))
        (LoadGlyphOps.mk (fun (n : Nat) r =>
          (n + 1, Glyph.mk 9 false r.top r.left r.width r.height 0 0 0 0)))
        emptyCache 0 (GlyphKey.mk 'A' (FontKey.mk 0) (FSize.mk 32))
        true).cache (GlyphKey.mk 'A' (FontKey.mk 0) (FSize.mk 32)) =
      some (GlyphCache.get (Metrics.mk 7 (-3)) (fun _ => some 1)
        (fun _ => RasterResult.ok
          (RasterizedGlyph.mk 'A' 1 1 2 3 (1, 0) (BitmapBuffer.rgb [1])))
        (LoadGlyphOps.mk (fun (n : Nat) r =>
          (n + 1, Glyph.mk 9 false r.top r.left r.width r.height 0 0 0 0)))
        emptyCache 0 (GlyphKey.mk 'A' (FontKey.mk 0) (FSize.mk 32))
        true).glyph ∧
    (emptyCache (GlyphKey.mk 'A' (FontKey.mk 0) (FSize.mk 32)) = none →
      emptyCache (GlyphKey.mk 'A' (FontKey.mk 0) (FSize.mk 32)) ≠
        (GlyphCache.get (Metrics.mk 7 (-3)) (fun _ => some 1)
          (fun _ => RasterResult.ok
            (RasterizedGlyph.mk 'A' 1 1 2 3 (1, 0) (BitmapBuffer.rgb [1])))
          (LoadGlyphOps.mk (fun (n : Nat) r =>
            (n + 1, Glyph.mk 9 false r.top r.left r.width r.height 0 0 0 0)))
          emptyCache 0 (GlyphKey.mk 'A' (FontKey.mk 0) (FSize.mk 32))
          true).cache (GlyphKey.mk 'A' (FontKey.mk 0) (FSize.mk 32))) :=
  cache_entry_after_get (Metrics.mk 7 (-3)) (fun _ => some 1)
    (fun _ => RasterResult.ok
      (RasterizedGlyph.mk 'A' 1 1 2 3 (1, 0) (BitmapBuffer.rgb [1])))
    (LoadGlyphOps.mk (fun (n : Nat) r =>
      (n + 1, Glyph.mk 9 false r.top r.left r.width r.height 0 0 0 0)))
    emptyCache 0 (GlyphKey.mk 'A' (FontKey.mk 0) (FSize.mk 32)) true

/-- C6: on a cache miss whose rasterization succeeds, the loader receives
the rasterized bitmap with its top bearing shifted up by the font descent,
its left bearing shifted right by the average advance exactly when the
character is a zero-width character, and every other field unchanged; the
returned glyph is the loader's output on that corrected bitmap, the loader
runs exactly once, and the result is cached under the key. -/
theorem metric_corrections {σ : Type} (metrics : Metrics)
    (cw : Char → Option Nat) (raster : GlyphKey → RasterResult)
    (ops : LoadGlyphOps σ) (cache : CacheMap) (ld : σ) (k : GlyphKey)
    (sm : Bool) (r : RasterizedGlyph) (h : cache k = none)
    (hr : raster k = RasterResult.ok r) :
    ∃ r' : RasterizedGlyph,
      (GlyphCache.get metrics cw raster ops cache ld k sm).ld =
        (ops.load_glyph ld r').1 ∧
      (GlyphCache.get metrics cw raster ops cache ld k sm).glyph =
        (ops.load_glyph ld r').2 ∧
      (GlyphCache.get metrics cw raster ops cache ld k sm).loads = 1 ∧
      r'.top = r.top - metrics.descent ∧
      r'.left = r.left + (if cw r.character = some 0 then
        metrics.average_advance else 0) ∧
      r'.character = r.character ∧ r'.width = r.width ∧
      r'.height = r.height ∧ r'.advance = r.advance ∧
      r'.buffer = r.buffer := by
  rw [GlyphCache.get_ok_eq metrics cw raster ops cache ld k sm r h hr]
  refine ⟨{ r with
      top := r.top - metrics.descent,
      left := r.left + (if cw r.character = some 0 then
        metrics.average_advance else 0) },
    ?_, ?_, ?_, rfl, rfl, rfl, rfl, rfl, rfl, rfl⟩
  · exact ((GlyphCache.finishGet_fields _ _ _ _ _).1).trans
      (congrArg Prod.fst (GlyphCache.load_glyph_eq metrics cw ops ld r))
  · rw [GlyphCache.finishGet_glyph_miss _ _ _ _ _ h]
    exact congrArg Prod.snd (GlyphCache.load_glyph_eq metrics cw ops ld r)
  · exact (GlyphCache.finishGet_fields _ _ _ _ _).2.2

/-- Witness for C6 at a concrete zero-width combining character. -/
theorem metric_corrections_witness :
    ∃ r' : RasterizedGlyph,
      (GlyphCache.get (Metrics.mk 7 (-3)) (fun c => if c = 'Z' then some 0
          else some 1)
        (fun _ => RasterResult.ok
          (RasterizedGlyph.mk 'Z' 4 5 6 2 (0, 0) (BitmapBuffer.rgb [])))
        (LoadGlyphOps.mk (fun (n : Nat) r =>
          (n + 1, Glyph.mk 9 false r.top r.left r.width r.height 0 0 0 0)))
        emptyCache 0 (GlyphKey.mk 'Z' (FontKey.mk 0) (FSize.mk 32))
        true).ld =
        ((LoadGlyphOps.mk (fun (n : Nat) r =>
          (n + 1, Glyph.mk 9 false r.top r.left r.width r.height 0 0 0 0))
          ).load_glyph 0 r').1 ∧
      (GlyphCache.get (Metrics.mk 7 (-3)) (fun c => if c = 'Z' then some 0
          else some 1)
        (fun _ => RasterResult.ok
          (RasterizedGlyph.mk 'Z' 4 5 6 2 (0, 0) (BitmapBuffer.rgb [])))
        (LoadGlyphOps.mk (fun (n : Nat) r =>
          (n + 1, Glyph.mk 9 false r.top r.left r.width r.height 0 0 0 0)))
        emptyCache 0 (GlyphKey.mk 'Z' (FontKey.mk 0) (FSize.mk 32))
        true).glyph =
        ((LoadGlyphOps.mk (fun (n : Nat) r =>
          (n + 1, Glyph.mk 9 false r.top r.left r.width r.height 0 0 0 0))
          ).load_glyph 0 r').2 ∧
      (GlyphCache.get (Metrics.mk 7 (-3)) (fun c => if c = 'Z' then some 0
          else some 1)
        (fun _ => RasterResult.ok
          (RasterizedGlyph.mk 'Z' 4 5 6 2 (0, 0) (BitmapBuffer.rgb [])))
        (LoadGlyphOps.mk (fun (n : Nat) r =>
          (n + 1, Glyph.mk 9 false r.top r.left r.width r.height 0 0 0 0)))
        emptyCache 0 (GlyphKey.mk 'Z' (FontKey.mk 0) (FSize.mk 32))
        true).loads = 1 ∧
      r'.top = (RasterizedGlyph.mk 'Z' 4 5 6 2 (0, 0)
        (BitmapBuffer.rgb [])).top - (Metrics.mk 7 (-3)).descent ∧
      r'.left = (RasterizedGlyph.mk 'Z' 4 5 6 2 (0, 0)
        (BitmapBuffer.rgb [])).left +
        (if (fun c => if c = 'Z' then some 0 else some 1)
          (RasterizedGlyph.mk 'Z' 4 5 6 2 (0, 0)
            (BitmapBuffer.rgb [])).character = some 0 then
          (Metrics.mk 7 (-3)).average_advance else 0) ∧
      r'.character = 'Z' ∧ r'.width = 4 ∧ r'.height = 5 ∧
      r'.advance = (0, 0) ∧ r'.buffer = BitmapBuffer.rgb [] :=
  metric_corrections (Metrics.mk 7 (-3))
    (fun c => if c = 'Z' then some 0 else some 1)
    (fun _ => RasterResult.ok
      (RasterizedGlyph.mk 'Z' 4 5 6 2 (0, 0) (BitmapBuffer.rgb [])))
    (LoadGlyphOps.mk (fun (n : Nat) r =>
      (n + 1, Glyph.mk 9 false r.top r.left r.width r.height 0 0 0 0)))
    emptyCache 0 (GlyphKey.mk 'Z' (FontKey.mk 0) (FSize.mk 32)) true
    (RasterizedGlyph.mk 'Z' 4 5 6 2 (0, 0) (BitmapBuffer.rgb []))
    rfl rfl

/-- C8: for a key whose rasterization fails with any non-missing failure,
`get` packs the zero-size default glyph, caches it under the original key
and returns it; a repeated `get` for the same key is a pure cache hit that
does not query the rasterizer again. -/
theorem default_glyph_on_error {σ : Type} (metrics : Metrics)
    (cw : Char → Option Nat) (raster : GlyphKey → RasterResult)
    (ops : LoadGlyphOps σ) (cache : CacheMap) (ld : σ) (k : GlyphKey)
    (sm : Bool) (h : cache k = none) (hr : raster k = RasterResult.err) :
    ∃ r' : RasterizedGlyph,
      (GlyphCache.get metrics cw raster ops cache ld k sm).ld =
        (ops.load_glyph ld r').1 ∧
      (GlyphCache.get metrics cw raster ops cache ld k sm).glyph =
        (ops.load_glyph ld r').2 ∧
      r'.width = 0 ∧ r'.height = 0 ∧ r'.buffer = BitmapBuffer.rgb [] ∧
      r'.top = -metrics.descent ∧
      (GlyphCache.get metrics cw raster ops cache ld k sm).cache k =
        some (GlyphCache.get metrics cw raster ops cache ld k sm).glyph ∧
      (GlyphCache.get metrics cw raster ops cache ld k sm).loads = 1 ∧
      (GlyphCache.get metrics cw raster ops cache ld k sm).rasterKeys =
        [k] ∧
      GlyphCache.get metrics cw raster ops
          (GlyphCache.get metrics cw raster ops cache ld k sm).cache
          (GlyphCache.get metrics cw raster ops cache ld k sm).ld k sm =
        ⟨(GlyphCache.get metrics cw raster ops cache ld k sm).cache,
          (GlyphCache.get metrics cw raster ops cache ld k sm).ld,
          (GlyphCache.get metrics cw raster ops cache ld k sm).glyph,
          [], 0⟩ := by
  have hself := GlyphCache.get_cache_self metrics cw raster ops cache ld
    k sm
  refine ⟨{ RasterizedGlyph.default with
      top := RasterizedGlyph.default.top - metrics.descent,
      left := RasterizedGlyph.default.left +
        (if cw RasterizedGlyph.default.character = some 0 then
          metrics.average_advance else 0) },
    ?_, ?_, rfl, rfl, rfl, ?_, hself, ?_, ?_, ?_⟩
  · rw [GlyphCache.get_err_eq metrics cw raster ops cache ld k sm h hr]
    exact ((GlyphCache.finishGet_fields _ _ _ _ _).1).trans
      (congrArg Prod.fst
        (GlyphCache.load_glyph_eq metrics cw ops ld RasterizedGlyph.default))
  · rw [GlyphCache.get_err_eq metrics cw raster ops cache ld k sm h hr]
    rw [GlyphCache.finishGet_glyph_miss _ _ _ _ _ h]
    exact congrArg Prod.snd
      (GlyphCache.load_glyph_eq metrics cw ops ld RasterizedGlyph.default)
  · show (0 : Int) - metrics.descent = -metrics.descent
    omega
  · rw [GlyphCache.get_err_eq metrics cw raster ops cache ld k sm h hr]
    exact (GlyphCache.finishGet_fields _ _ _ _ _).2.2
  · rw [GlyphCache.get_err_eq metrics cw raster ops cache ld k sm h hr]
    exact (GlyphCache.finishGet_fields _ _ _ _ _).2.1
  · exact GlyphCache.get_hit metrics cw raster ops _ _ k sm _ hself

/-- Witness for C8 at a concrete always-failing rasterizer. -/
theorem default_glyph_on_error_witness :
    ∃ r' : RasterizedGlyph,
      (GlyphCache.get (Metrics.mk 7 (-3)) (fun _ => some 1)
        (fun _ => RasterResult.err)
        (LoadGlyphOps.mk (fun (n : Nat) r =>
          (n + 1, Glyph.mk 9 false r.top r.left r.width r.height 0 0 0 0)))
        emptyCache 0 (GlyphKey.mk 'Q' (FontKey.mk 0) (FSize.mk 32))
        true).ld =
        ((LoadGlyphOps.mk (fun (n : Nat) r =>
          (n + 1, Glyph.mk 9 false r.top r.left r.width r.height 0 0 0 0))
          ).load_glyph 0 r').1 ∧
      (GlyphCache.get (Metrics.mk 7 (-3)) (fun _ => some 1)
        (fun _ => RasterResult.err)
        (LoadGlyphOps.mk (fun (n : Nat) r =>
          (n + 1, Glyph.mk 9 false r.top r.left r.width r.height 0 0 0 0)))
        emptyCache 0 (GlyphKey.mk 'Q' (FontKey.mk 0) (FSize.mk 32))
        true).glyph =
        ((LoadGlyphOps.mk (fun (n : Nat) r =>
          (n + 1, Glyph.mk 9 false r.top r.left r.width r.height 0 0 0 0))
          ).load_glyph 0 r').2 ∧
      r'.width = 0 ∧ r'.height = 0 ∧ r'.buffer = BitmapBuffer.rgb [] ∧
      r'.top = -(Metrics.mk 7 (-3)).descent ∧
      (GlyphCache.get (Metrics.mk 7 (-3)) (fun _ => some 1)
        (fun _ => RasterResult.err)
        (LoadGlyphOps.mk (fun (n : Nat) r =>
          (n + 1, Glyph.mk 9 false r.top r.left r.width r.height 0 0 0 0)))
        emptyCache 0 (GlyphKey.mk 'Q' (FontKey.mk 0) (FSize.mk 32))
        true).cache (GlyphKey.mk 'Q' (FontKey.mk 0) (FSize.mk 32)) =
        some (GlyphCache.get (Metrics.mk 7 (-3)) (fun _ => some 1)
          (fun _ => RasterResult.err)
          (LoadGlyphOps.mk (fun (n : Nat) r =>
            (n + 1, Glyph.mk 9 false r.top r.left r.width r.height 0 0 0 0)))
          emptyCache 0 (GlyphKey.mk 'Q' (FontKey.mk 0) (FSize.mk 32))
          true).glyph ∧
      (GlyphCache.get (Metrics.mk 7 (-3)) (fun _ => some 1)
        (fun _ => RasterResult.err)
        (LoadGlyphOps.mk (fun (n : Nat) r =>
          (n + 1, Glyph.mk 9 false r.top r.left r.width r.height 0 0 0 0)))
        emptyCache 0 (GlyphKey.mk 'Q' (FontKey.mk 0) (FSize.mk 32))
        true).loads = 1 ∧
      (GlyphCache.get (Metrics.mk 7 (-3)) (fun _ => some 1)
        (fun _ => RasterResult.err)
        (LoadGlyphOps.mk (fun (n : Nat) r =>
          (n + 1, Glyph.mk 9 false r.top r.left r.width r.height 0 0 0 0)))
        emptyCache 0 (GlyphKey.mk 'Q' (FontKey.mk 0) (FSize.mk 32))
        true).rasterKeys = [GlyphKey.mk 'Q' (FontKey.mk 0) (FSize.mk 32)] ∧
      GlyphCache.get (Metrics.mk 7 (-3)) (fun _ => some 1)
          (fun _ => RasterResult.err)
          (LoadGlyphOps.mk (fun (n : Nat) r =>
            (n + 1, Glyph.mk 9 false r.top r.left r.width r.height 0 0 0 0)))
          (GlyphCache.get (Metrics.mk 7 (-3)) (fun _ => some 1)
            (fun _ => RasterResult.err)
            (LoadGlyphOps.mk (fun (n : Nat) r =>
              (n + 1, Glyph.mk 9 false r.top r.left r.width r.height
                0 0 0 0)))
            emptyCache 0 (GlyphKey.mk 'Q' (FontKey.mk 0) (FSize.mk 32))
            true).cache
          (GlyphCache.get (Metrics.mk 7 (-3)) (fun _ => some 1)
            (fun _ => RasterResult.err)
            (LoadGlyphOps.mk (fun (n : Nat) r =>
              (n + 1, Glyph.mk 9 false r.top r.left r.width r.height
                0 0 0 0)))
            emptyCache 0 (GlyphKey.mk 'Q' (FontKey.mk 0) (FSize.mk 32))
            true).ld (GlyphKey.mk 'Q' (FontKey.mk 0) (FSize.mk 32)) true =
        ⟨(GlyphCache.get (Metrics.mk 7 (-3)) (fun _ => some 1)
            (fun _ => RasterResult.err)
            (LoadGlyphOps.mk (fun (n : Nat) r =>
              (n + 1, Glyph.mk 9 false r.top r.left r.width r.height
                0 0 0 0)))
            emptyCache 0 (GlyphKey.mk 'Q' (FontKey.mk 0) (FSize.mk 32))
            true).cache,
          (GlyphCache.get (Metrics.mk 7 (-3)) (fun _ => some 1)
            (fun _ => RasterResult.err)
            (LoadGlyphOps.mk (fun (n : Nat) r =>
              (n + 1, Glyph.mk 9 false r.top r.left r.width r.height
                0 0 0 0)))
            emptyCache 0 (GlyphKey.mk 'Q' (FontKey.mk 0) (FSize.mk 32))
            true).ld,
          (GlyphCache.get (Metrics.mk 7 (-3)) (fun _ => some 1)
            (fun _ => RasterResult.err)
            (LoadGlyphOps.mk (fun (n : Nat) r =>
              (n + 1, Glyph.mk 9 false r.top r.left r.width r.height
                0 0 0 0)))
            emptyCache 0 (GlyphKey.mk 'Q' (FontKey.mk 0) (FSize.mk 32))
            true).glyph,
          [], 0⟩ :=
  default_glyph_on_error (Metrics.mk 7 (-3)) (fun _ => some 1)
    (fun _ => RasterResult.err)
    (LoadGlyphOps.mk (fun (n : Nat) r =>
      (n + 1, Glyph.mk 9 false r.top r.left r.width r.height 0 0 0 0)))
    emptyCache 0 (GlyphKey.mk 'Q' (FontKey.mk 0) (FSize.mk 32)) true
    rfl rfl

/-- C9 counterexample: with `show_missing` unset and a rasterizer that
reports a missing glyph for the key, `get` does NOT propagate the failure
— it is total — and instead hands the zero-size default bitmap to the
loader, caches the packed result under the original key and returns it
(the recording loader shows exactly one load, of the blank default bitmap,
not of the fallback bitmap carried by the error). -/
theorem missing_glyph_propagation_cex :
    (GlyphCache.get (Metrics.mk 7 (-3)) (fun _ => some 1)
      (fun k' => if k'.character = 'q' then
        RasterResult.missingGlyph
          (RasterizedGlyph.mk 'q' 3 4 1 1 (2, 0) (BitmapBuffer.rgb [9]))
        else RasterResult.ok RasterizedGlyph.default)
      (LoadGlyphOps.mk (fun (l : List RasterizedGlyph) r =>
        (l ++ [r], Glyph.mk 5 false r.top r.left r.width r.height 0 0 0 0)))
      emptyCache [] (GlyphKey.mk 'q' (FontKey.mk 0) (FSize.mk 32))
      false).ld =
      [RasterizedGlyph.mk (Char.ofNat 32) 0 0 3 0 (0, 0)
        (BitmapBuffer.rgb [])] ∧
    (GlyphCache.get (Metrics.mk 7 (-3)) (fun _ => some 1)
      (fun k' => if k'.character = 'q' then
        RasterResult.missingGlyph
          (RasterizedGlyph.mk 'q' 3 4 1 1 (2, 0) (BitmapBuffer.rgb [9]))
        else RasterResult.ok RasterizedGlyph.default)
      (LoadGlyphOps.mk (fun (l : List RasterizedGlyph) r =>
        (l ++ [r], Glyph.mk 5 false r.top r.left r.width r.height 0 0 0 0)))
      emptyCache [] (GlyphKey.mk 'q' (FontKey.mk 0) (FSize.mk 32))
      false).cache (GlyphKey.mk 'q' (FontKey.mk 0) (FSize.mk 32)) =
      some (GlyphCache.get (Metrics.mk 7 (-3)) (fun _ => some 1)
        (fun k' => if k'.character = 'q' then
          RasterResult.missingGlyph
            (RasterizedGlyph.mk 'q' 3 4 1 1 (2, 0) (BitmapBuffer.rgb [9]))
          else RasterResult.ok RasterizedGlyph.default)
        (LoadGlyphOps.mk (fun (l : List RasterizedGlyph) r =>
          (l ++ [r],
            Glyph.mk 5 false r.top r.left r.width r.height 0 0 0 0)))
        emptyCache [] (GlyphKey.mk 'q' (FontKey.mk 0) (FSize.mk 32))
        false).glyph ∧
    (GlyphCache.get (Metrics.mk 7 (-3)) (fun _ => some 1)
      (fun k' => if k'.character = 'q' then
        RasterResult.missingGlyph
          (RasterizedGlyph.mk 'q' 3 4 1 1 (2, 0) (BitmapBuffer.rgb [9]))
        else RasterResult.ok RasterizedGlyph.default)
      (LoadGlyphOps.mk (fun (l : List RasterizedGlyph) r =>
        (l ++ [r], Glyph.mk 5 false r.top r.left r.width r.height 0 0 0 0)))
      emptyCache [] (GlyphKey.mk 'q' (FontKey.mk 0) (FSize.mk 32))
      false).loads = 1 := by
  refine ⟨?_, ?_, ?_⟩ <;> decide

/-- C9 amended: when `substituteMissing` is not set, a missing-glyph
failure is handled exactly like every other rasterizer failure (the
`Err(_)` arm): `get` never propagates it; the zero-size default glyph is
packed, cached under the original key and returned. -/
theorem missing_glyph_propagation_amended {σ : Type} (metrics : Metrics)
    (cw : Char → Option Nat) (raster : GlyphKey → RasterResult)
    (ops : LoadGlyphOps σ) (cache : CacheMap) (ld : σ) (k : GlyphKey)
    (r : RasterizedGlyph) (h : cache k = none)
    (hr : raster k = RasterResult.missingGlyph r) :
    GlyphCache.get metrics cw raster ops cache ld k false =
      GlyphCache.get metrics cw
        (fun k' => if k' = k then RasterResult.err else raster k')
        ops cache ld k false ∧
    (∃ r' : RasterizedGlyph,
      (GlyphCache.get metrics cw raster ops cache ld k false).ld =
        (ops.load_glyph ld r').1 ∧
      (GlyphCache.get metrics cw raster ops cache ld k false).glyph =
        (ops.load_glyph ld r').2 ∧
      r'.width = 0 ∧ r'.height = 0 ∧ r'.buffer = BitmapBuffer.rgb []) ∧
    (GlyphCache.get metrics cw raster ops cache ld k false).cache k =
      some (GlyphCache.get metrics cw raster ops cache ld k false).glyph ∧
    (GlyphCache.get metrics cw raster ops cache ld k false).loads = 1 := by
  have e1 := GlyphCache.get_missing_nosm_eq metrics cw raster ops cache ld
    k r h hr
  have e2 := GlyphCache.get_err_eq metrics cw
    (fun k' => if k' = k then RasterResult.err else raster k')
    ops cache ld k false h (by simp)
  refine ⟨e1.trans e2.symm, ?_,
    GlyphCache.get_cache_self metrics cw raster ops cache ld k false, ?_⟩
  · refine ⟨{ RasterizedGlyph.default with
        top := RasterizedGlyph.default.top - metrics.descent,
        left := RasterizedGlyph.default.left +
          (if cw RasterizedGlyph.default.character = some 0 then
            metrics.average_advance else 0) },
      ?_, ?_, rfl, rfl, rfl⟩
    · rw [e1]
      exact ((GlyphCache.finishGet_fields _ _ _ _ _).1).trans
        (congrArg Prod.fst (GlyphCache.load_glyph_eq metrics cw ops ld
          RasterizedGlyph.default))
    · rw [e1]
      rw [GlyphCache.finishGet_glyph_miss _ _ _ _ _ h]
      exact congrArg Prod.snd (GlyphCache.load_glyph_eq metrics cw ops ld
        RasterizedGlyph.default)
  · rw [e1]
    exact (GlyphCache.finishGet_fields _ _ _ _ _).2.2

/-- Witness for the amended C9 at a concrete missing-glyph rasterizer. -/
theorem missing_glyph_propagation_amended_witness :
    GlyphCache.get (Metrics.mk 7 (-3)) (fun _ => some 1)
      (fun k' => if k'.character = 'q' then
        RasterResult.missingGlyph
          (RasterizedGlyph.mk 'q' 3 4 1 1 (2, 0) (BitmapBuffer.rgb [9]))
        else RasterResult.ok RasterizedGlyph.default)
      (LoadGlyphOps.mk (fun (n : Nat) r =>
        (n + 1, Glyph.mk 5 false r.top r.left r.width r.height 0 0 0 0)))
      emptyCache 0 (GlyphKey.mk 'q' (FontKey.mk 0) (FSize.mk 32)) false =
      GlyphCache.get (Metrics.mk 7 (-3)) (fun _ => some 1)
        (fun k' => if k' = GlyphKey.mk 'q' (FontKey.mk 0) (FSize.mk 32)
          then RasterResult.err
          else if k'.character = 'q' then
            RasterResult.missingGlyph
              (RasterizedGlyph.mk 'q' 3 4 1 1 (2, 0) (BitmapBuffer.rgb [9]))
          else RasterResult.ok RasterizedGlyph.default)
        (LoadGlyphOps.mk (fun (n : Nat) r =>
          (n + 1, Glyph.mk 5 false r.top r.left r.width r.height 0 0 0 0)))
        emptyCache 0 (GlyphKey.mk 'q' (FontKey.mk 0) (FSize.mk 32))
        false ∧
    (∃ r' : RasterizedGlyph,
      (GlyphCache.get (Metrics.mk 7 (-3)) (fun _ => some 1)
        (fun k' => if k'.character = 'q' then
          RasterResult.missingGlyph
            (RasterizedGlyph.mk 'q' 3 4 1 1 (2, 0) (BitmapBuffer.rgb [9]))
          else RasterResult.ok RasterizedGlyph.default)
        (LoadGlyphOps.mk (fun (n : Nat) r =>
          (n + 1, Glyph.mk 5 false r.top r.left r.width r.height 0 0 0 0)))
        emptyCache 0 (GlyphKey.mk 'q' (FontKey.mk 0) (FSize.mk 32))
        false).ld =
        ((LoadGlyphOps.mk (fun (n : Nat) r =>
          (n + 1, Glyph.mk 5 false r.top r.left r.width r.height 0 0 0 0))
          ).load_glyph 0 r').1 ∧
      (GlyphCache.get (Metrics.mk 7 (-3)) (fun _ => some 1)
        (fun k' => if k'.character = 'q' then
          RasterResult.missingGlyph
            (RasterizedGlyph.mk 'q' 3 4 1 1 (2, 0) (BitmapBuffer.rgb [9]))
          else RasterResult.ok RasterizedGlyph.default)
        (LoadGlyphOps.mk (fun (n : Nat) r =>
          (n + 1, Glyph.mk 5 false r.top r.left r.width r.height 0 0 0 0)))
        emptyCache 0 (GlyphKey.mk 'q' (FontKey.mk 0) (FSize.mk 32))
        false).glyph =
        ((LoadGlyphOps.mk (fun (n : Nat) r =>
          (n + 1, Glyph.mk 5 false r.top r.left r.width r.height 0 0 0 0))
          ).load_glyph 0 r').2 ∧
      r'.width = 0 ∧ r'.height = 0 ∧ r'.buffer = BitmapBuffer.rgb []) ∧
    (GlyphCache.get (Metrics.mk 7 (-3)) (fun _ => some 1)
      (fun k' => if k'.character = 'q' then
        RasterResult.missingGlyph
          (RasterizedGlyph.mk 'q' 3 4 1 1 (2, 0) (BitmapBuffer.rgb [9]))
        else RasterResult.ok RasterizedGlyph.default)
      (LoadGlyphOps.mk (fun (n : Nat) r =>
        (n + 1, Glyph.mk 5 false r.top r.left r.width r.height 0 0 0 0)))
      emptyCache 0 (GlyphKey.mk 'q' (FontKey.mk 0) (FSize.mk 32))
      false).cache (GlyphKey.mk 'q' (FontKey.mk 0) (FSize.mk 32)) =
      some (GlyphCache.get (Metrics.mk 7 (-3)) (fun _ => some 1)
        (fun k' => if k'.character = 'q' then
          RasterResult.missingGlyph
            (RasterizedGlyph.mk 'q' 3 4 1 1 (2, 0) (BitmapBuffer.rgb [9]))
          else RasterResult.ok RasterizedGlyph.default)
        (LoadGlyphOps.mk (fun (n : Nat) r =>
          (n + 1, Glyph.mk 5 false r.top r.left r.width r.height 0 0 0 0)))
        emptyCache 0 (GlyphKey.mk 'q' (FontKey.mk 0) (FSize.mk 32))
        false).glyph ∧
    (GlyphCache.get (Metrics.mk 7 (-3)) (fun _ => some 1)
      (fun k' => if k'.character = 'q' then
        RasterResult.missingGlyph
          (RasterizedGlyph.mk 'q' 3 4 1 1 (2, 0) (BitmapBuffer.rgb [9]))
        else RasterResult.ok RasterizedGlyph.default)
      (LoadGlyphOps.mk (fun (n : Nat) r =>
        (n + 1, Glyph.mk 5 false r.top r.left r.width r.height 0 0 0 0)))
      emptyCache 0 (GlyphKey.mk 'q' (FontKey.mk 0) (FSize.mk 32))
      false).loads = 1 :=
  missing_glyph_propagation_amended (Metrics.mk 7 (-3)) (fun _ => some 1)
    (fun k' => if k'.character = 'q' then
      RasterResult.missingGlyph
        (RasterizedGlyph.mk 'q' 3 4 1 1 (2, 0) (BitmapBuffer.rgb [9]))
      else RasterResult.ok RasterizedGlyph.default)
    (LoadGlyphOps.mk (fun (n : Nat) r =>
      (n + 1, Glyph.mk 5 false r.top r.left r.width r.height 0 0 0 0)))
    emptyCache 0 (GlyphKey.mk 'q' (FontKey.mk 0) (FSize.mk 32))
    (RasterizedGlyph.mk 'q' 3 4 1 1 (2, 0) (BitmapBuffer.rgb [9]))
    rfl (by decide)

/-- C5 counterexample: two distinct unmappable characters under the same
font and size do share one sentinel entry with identical payload and a
single loader packing, but the rasterizer is invoked twice — once per
character — not exactly once: no reading of "exactly one rasterizer call
for the fallback" holds (the total is 2, and the sentinel key itself is
rasterized 0 times). -/
theorem fallback_sharing_cex :
    (runGets (Metrics.mk 7 (-3)) (fun _ => some 1)
      (fun k' => if k'.character = 'z' then
        RasterResult.ok RasterizedGlyph.default
        else RasterResult.missingGlyph
          (RasterizedGlyph.mk k'.character 3 3 1 1 (0, 0)
            (BitmapBuffer.rgb [])))
      (LoadGlyphOps.mk (fun (n : Nat) r =>
        (n + 1, Glyph.mk 4 false r.top r.left r.width r.height 0 0 0 0)))
      emptyCache 0
      [(GlyphKey.mk 'a' (FontKey.mk 0) (FSize.mk 32), true),
        (GlyphKey.mk 'b' (FontKey.mk 0) (FSize.mk 32), true)]).rasterKeys =
      [GlyphKey.mk 'a' (FontKey.mk 0) (FSize.mk 32),
        GlyphKey.mk 'b' (FontKey.mk 0) (FSize.mk 32)] ∧
    (runGets (Metrics.mk 7 (-3)) (fun _ => some 1)
      (fun k' => if k'.character = 'z' then
        RasterResult.ok RasterizedGlyph.default
        else RasterResult.missingGlyph
          (RasterizedGlyph.mk k'.character 3 3 1 1 (0, 0)
            (BitmapBuffer.rgb [])))
      (LoadGlyphOps.mk (fun (n : Nat) r =>
        (n + 1, Glyph.mk 4 false r.top r.left r.width r.height 0 0 0 0)))
      emptyCache 0
      [(GlyphKey.mk 'a' (FontKey.mk 0) (FSize.mk 32), true),
        (GlyphKey.mk 'b' (FontKey.mk 0) (FSize.mk 32),
          true)]).rasterKeys.length ≠ 1 ∧
    ((runGets (Metrics.mk 7 (-3)) (fun _ => some 1)
      (fun k' => if k'.character = 'z' then
        RasterResult.ok RasterizedGlyph.default
        else RasterResult.missingGlyph
          (RasterizedGlyph.mk k'.character 3 3 1 1 (0, 0)
            (BitmapBuffer.rgb [])))
      (LoadGlyphOps.mk (fun (n : Nat) r =>
        (n + 1, Glyph.mk 4 false r.top r.left r.width r.height 0 0 0 0)))
      emptyCache 0
      [(GlyphKey.mk 'a' (FontKey.mk 0) (FSize.mk 32), true),
        (GlyphKey.mk 'b' (FontKey.mk 0) (FSize.mk 32),
          true)]).rasterKeys).count
      (GlyphKey.mk sentinelChar (FontKey.mk 0) (FSize.mk 32)) ≠ 1 ∧
    (runGets (Metrics.mk 7 (-3)) (fun _ => some 1)
      (fun k' => if k'.character = 'z' then
        RasterResult.ok RasterizedGlyph.default
        else RasterResult.missingGlyph
          (RasterizedGlyph.mk k'.character 3 3 1 1 (0, 0)
            (BitmapBuffer.rgb [])))
      (LoadGlyphOps.mk (fun (n : Nat) r =>
        (n + 1, Glyph.mk 4 false r.top r.left r.width r.height 0 0 0 0)))
      emptyCache 0
      [(GlyphKey.mk 'a' (FontKey.mk 0) (FSize.mk 32), true),
        (GlyphKey.mk 'b' (FontKey.mk 0) (FSize.mk 32), true)]).loads =
      1 ∧
    (runGets (Metrics.mk 7 (-3)) (fun _ => some 1)
      (fun k' => if k'.character = 'z' then
        RasterResult.ok RasterizedGlyph.default
        else RasterResult.missingGlyph
          (RasterizedGlyph.mk k'.character 3 3 1 1 (0, 0)
            (BitmapBuffer.rgb [])))
      (LoadGlyphOps.mk (fun (n : Nat) r =>
        (n + 1, Glyph.mk 4 false r.top r.left r.width r.height 0 0 0 0)))
      emptyCache 0
      [(GlyphKey.mk 'a' (FontKey.mk 0) (FSize.mk 32), true),
        (GlyphKey.mk 'b' (FontKey.mk 0) (FSize.mk 32), true)]).cache
      (GlyphKey.mk 'a' (FontKey.mk 0) (FSize.mk 32)) =
      (runGets (Metrics.mk 7 (-3)) (fun _ => some 1)
        (fun k' => if k'.character = 'z' then
          RasterResult.ok RasterizedGlyph.default
          else RasterResult.missingGlyph
            (RasterizedGlyph.mk k'.character 3 3 1 1 (0, 0)
              (BitmapBuffer.rgb [])))
        (LoadGlyphOps.mk (fun (n : Nat) r =>
          (n + 1, Glyph.mk 4 false r.top r.left r.width r.height 0 0 0 0)))
        emptyCache 0
        [(GlyphKey.mk 'a' (FontKey.mk 0) (FSize.mk 32), true),
          (GlyphKey.mk 'b' (FontKey.mk 0) (FSize.mk 32), true)]).cache
        (GlyphKey.mk 'b' (FontKey.mk 0) (FSize.mk 32)) ∧
    (runGets (Metrics.mk 7 (-3)) (fun _ => some 1)
      (fun k' => if k'.character = 'z' then
        RasterResult.ok RasterizedGlyph.default
        else RasterResult.missingGlyph
          (RasterizedGlyph.mk k'.character 3 3 1 1 (0, 0)
            (BitmapBuffer.rgb [])))
      (LoadGlyphOps.mk (fun (n : Nat) r =>
        (n + 1, Glyph.mk 4 false r.top r.left r.width r.height 0 0 0 0)))
      emptyCache 0
      [(GlyphKey.mk 'a' (FontKey.mk 0) (FSize.mk 32), true),
        (GlyphKey.mk 'b' (FontKey.mk 0) (FSize.mk 32), true)]).cache
      (GlyphKey.mk sentinelChar (FontKey.mk 0) (FSize.mk 32)) =
      (runGets (Metrics.mk 7 (-3)) (fun _ => some 1)
        (fun k' => if k'.character = 'z' then
          RasterResult.ok RasterizedGlyph.default
          else RasterResult.missingGlyph
            (RasterizedGlyph.mk k'.character 3 3 1 1 (0, 0)
              (BitmapBuffer.rgb [])))
        (LoadGlyphOps.mk (fun (n : Nat) r =>
          (n + 1, Glyph.mk 4 false r.top r.left r.width r.height 0 0 0 0)))
        emptyCache 0
        [(GlyphKey.mk 'a' (FontKey.mk 0) (FSize.mk 32), true),
          (GlyphKey.mk 'b' (FontKey.mk 0) (FSize.mk 32), true)]).cache
        (GlyphKey.mk 'a' (FontKey.mk 0) (FSize.mk 32)) ∧
    ((runGets (Metrics.mk 7 (-3)) (fun _ => some 1)
      (fun k' => if k'.character = 'z' then
        RasterResult.ok RasterizedGlyph.default
        else RasterResult.missingGlyph
          (RasterizedGlyph.mk k'.character 3 3 1 1 (0, 0)
            (BitmapBuffer.rgb [])))
      (LoadGlyphOps.mk (fun (n : Nat) r =>
        (n + 1, Glyph.mk 4 false r.top r.left r.width r.height 0 0 0 0)))
      emptyCache 0
      [(GlyphKey.mk 'a' (FontKey.mk 0) (FSize.mk 32), true),
        (GlyphKey.mk 'b' (FontKey.mk 0) (FSize.mk 32), true)]).cache
      (GlyphKey.mk 'a' (FontKey.mk 0) (FSize.mk 32))).isSome = true := by
  refine ⟨?_, ?_, ?_, ?_, ?_, ?_, ?_⟩ <;> decide

/-- C5 amended: two distinct unmappable characters under one (font, size)
share one sentinel cache entry and identical payload, and the loader packs
the fallback exactly once; the rasterizer, however, is invoked once per
distinct character — here `[k1, k2]` — never for the sentinel. -/
theorem fallback_sharing_amended {σ : Type} (metrics : Metrics)
    (cw : Char → Option Nat) (raster : GlyphKey → RasterResult)
    (ops : LoadGlyphOps σ) (ld0 : σ) (k1 k2 : GlyphKey)
    (r1 r2 : RasterizedGlyph)
    (hf : k2.font_key = k1.font_key) (hs : k2.size = k1.size)
    (hck : k1.character ≠ k2.character)
    (h1 : k1.character ≠ sentinelChar) (h2 : k2.character ≠ sentinelChar)
    (hr1 : raster k1 = RasterResult.missingGlyph r1)
    (hr2 : raster k2 = RasterResult.missingGlyph r2) :
    ∃ g : Glyph,
      (runGets metrics cw raster ops emptyCache ld0
        [(k1, true), (k2, true)]).cache k1 = some g ∧
      (runGets metrics cw raster ops emptyCache ld0
        [(k1, true), (k2, true)]).cache k2 = some g ∧
      (runGets metrics cw raster ops emptyCache ld0
        [(k1, true), (k2, true)]).cache
        { k1 with character := sentinelChar } = some g ∧
      (runGets metrics cw raster ops emptyCache ld0
        [(k1, true), (k2, true)]).loads = 1 ∧
      (runGets metrics cw raster ops emptyCache ld0
        [(k1, true), (k2, true)]).rasterKeys = [k1, k2] := by
  have hk1mk : k1 ≠ { k1 with character := sentinelChar } :=
    GlyphKey.ne_of_char _ _ h1
  have hk2mk : k2 ≠ { k1 with character := sentinelChar } :=
    GlyphKey.ne_of_char _ _ h2
  have hk12 : k1 ≠ k2 := GlyphKey.ne_of_char _ _ hck
  have hk21 : k2 ≠ k1 := fun he => hk12 he.symm
  have hmk2 : ({ k2 with character := sentinelChar } : GlyphKey) =
      { k1 with character := sentinelChar } := by
    show GlyphKey.mk sentinelChar k2.font_key k2.size =
      GlyphKey.mk sentinelChar k1.font_key k1.size
    rw [hf, hs]
  have e1 := GlyphCache.get_missing_sm_miss_eq metrics cw raster ops
    emptyCache ld0 k1 r1 rfl hr1 rfl
  have hc1none : (emptyCache.insert { k1 with character := sentinelChar }
      (GlyphCache.load_glyph metrics cw ops ld0 r1).2) k1 = none := by
    rw [CacheMap.insert_ne _ _ _ _ hk1mk]
    rfl
  have hcache1 : (GlyphCache.get metrics cw raster ops emptyCache ld0 k1
      true).cache =
      (emptyCache.insert { k1 with character := sentinelChar }
        (GlyphCache.load_glyph metrics cw ops ld0 r1).2).insert k1
        (GlyphCache.load_glyph metrics cw ops ld0 r1).2 := by
    rw [e1]
    exact GlyphCache.finishGet_cache_eq_miss _ _ _ _ _ hc1none
  have hld1 : (GlyphCache.get metrics cw raster ops emptyCache ld0 k1
      true).ld = (GlyphCache.load_glyph metrics cw ops ld0 r1).1 := by
    rw [e1]
    exact (GlyphCache.finishGet_fields _ _ _ _ _).1
  have hloads1 : (GlyphCache.get metrics cw raster ops emptyCache ld0 k1
      true).loads = 1 := by
    rw [e1]
    exact (GlyphCache.finishGet_fields _ _ _ _ _).2.2
  have hkeys1 : (GlyphCache.get metrics cw raster ops emptyCache ld0 k1
      true).rasterKeys = [k1] := by
    rw [e1]
    exact (GlyphCache.finishGet_fields _ _ _ _ _).2.1
  have hc2none : (GlyphCache.get metrics cw raster ops emptyCache ld0 k1
      true).cache k2 = none := by
    rw [hcache1, CacheMap.insert_ne _ _ _ _ hk21,
      CacheMap.insert_ne _ _ _ _ hk2mk]
    rfl
  have hc2mk : (GlyphCache.get metrics cw raster ops emptyCache ld0 k1
      true).cache { k2 with character := sentinelChar } =
      some (GlyphCache.load_glyph metrics cw ops ld0 r1).2 := by
    rw [hmk2, hcache1, CacheMap.insert_ne _ _ _ _
      (fun he => hk1mk he.symm)]
    exact CacheMap.insert_self _ _ _
  have e2 := GlyphCache.get_missing_sm_hit_eq metrics cw raster ops
    (GlyphCache.get metrics cw raster ops emptyCache ld0 k1 true).cache
    (GlyphCache.get metrics cw raster ops emptyCache ld0 k1 true).ld
    k2 r2 (GlyphCache.load_glyph metrics cw ops ld0 r1).2
    hc2none hr2 hc2mk
  have hcache2 : (GlyphCache.get metrics cw raster ops
      (GlyphCache.get metrics cw raster ops emptyCache ld0 k1 true).cache
      (GlyphCache.get metrics cw raster ops emptyCache ld0 k1 true).ld
      k2 true).cache =
      ((GlyphCache.get metrics cw raster ops emptyCache ld0 k1
        true).cache).insert k2
        (GlyphCache.load_glyph metrics cw ops ld0 r1).2 := by
    rw [e2]
    exact GlyphCache.finishGet_cache_eq_miss _ _ _ _ _ hc2none
  have hloads2 : (GlyphCache.get metrics cw raster ops
      (GlyphCache.get metrics cw raster ops emptyCache ld0 k1 true).cache
      (GlyphCache.get metrics cw raster ops emptyCache ld0 k1 true).ld
      k2 true).loads = 0 := by
    rw [e2]
    exact (GlyphCache.finishGet_fields _ _ _ _ _).2.2
  have hkeys2 : (GlyphCache.get metrics cw raster ops
      (GlyphCache.get metrics cw raster ops emptyCache ld0 k1 true).cache
      (GlyphCache.get metrics cw raster ops emptyCache ld0 k1 true).ld
      k2 true).rasterKeys = [k2] := by
    rw [e2]
    exact (GlyphCache.finishGet_fields _ _ _ _ _).2.1
  refine ⟨(GlyphCache.load_glyph metrics cw ops ld0 r1).2,
    ?_, ?_, ?_, ?_, ?_⟩
  · show (GlyphCache.get metrics cw raster ops
      (GlyphCache.get metrics cw raster ops emptyCache ld0 k1 true).cache
      (GlyphCache.get metrics cw raster ops emptyCache ld0 k1 true).ld
      k2 true).cache k1 = _
    rw [hcache2, CacheMap.insert_ne _ _ _ _ hk12, hcache1]
    exact CacheMap.insert_self _ _ _
  · show (GlyphCache.get metrics cw raster ops
      (GlyphCache.get metrics cw raster ops emptyCache ld0 k1 true).cache
      (GlyphCache.get metrics cw raster ops emptyCache ld0 k1 true).ld
      k2 true).cache k2 = _
    rw [hcache2]
    exact CacheMap.insert_self _ _ _
  · show (GlyphCache.get metrics cw raster ops
      (GlyphCache.get metrics cw raster ops emptyCache ld0 k1 true).cache
      (GlyphCache.get metrics cw raster ops emptyCache ld0 k1 true).ld
      k2 true).cache { k1 with character := sentinelChar } = _
    rw [hcache2, CacheMap.insert_ne _ _ _ _
      (fun he => hk2mk he.symm), hcache1,
      CacheMap.insert_ne _ _ _ _ (fun he => hk1mk he.symm)]
    exact CacheMap.insert_self _ _ _
  · show (GlyphCache.get metrics cw raster ops emptyCache ld0 k1
        true).loads +
      ((GlyphCache.get metrics cw raster ops
        (GlyphCache.get metrics cw raster ops emptyCache ld0 k1
          true).cache
        (GlyphCache.get metrics cw raster ops emptyCache ld0 k1 true).ld
        k2 true).loads + 0) = 1
    rw [hloads1, hloads2]
  · show (GlyphCache.get metrics cw raster ops emptyCache ld0 k1
        true).rasterKeys ++
      ((GlyphCache.get metrics cw raster ops
        (GlyphCache.get metrics cw raster ops emptyCache ld0 k1
          true).cache
        (GlyphCache.get metrics cw raster ops emptyCache ld0 k1 true).ld
        k2 true).rasterKeys ++ []) = [k1, k2]
    rw [hkeys1, hkeys2]
    rfl

/-- Witness for the amended C5 at two concrete unmappable characters. -/
theorem fallback_sharing_amended_witness :
    ∃ g : Glyph,
      (runGets (Metrics.mk 7 (-3)) (fun _ => some 1)
        (fun k' => if k'.character = 'z' then
          RasterResult.ok RasterizedGlyph.default
          else RasterResult.missingGlyph
            (RasterizedGlyph.mk k'.character 3 3 1 1 (0, 0)
              (BitmapBuffer.rgb [])))
        (LoadGlyphOps.mk (fun (n : Nat) r =>
          (n + 1, Glyph.mk 4 false r.top r.left r.width r.height 0 0 0 0)))
        emptyCache 0
        [(GlyphKey.mk 'a' (FontKey.mk 0) (FSize.mk 32), true),
          (GlyphKey.mk 'b' (FontKey.mk 0) (FSize.mk 32), true)]).cache
        (GlyphKey.mk 'a' (FontKey.mk 0) (FSize.mk 32)) = some g ∧
      (runGets (Metrics.mk 7 (-3)) (fun _ => some 1)
        (fun k' => if k'.character = 'z' then
          RasterResult.ok RasterizedGlyph.default
          else RasterResult.missingGlyph
            (RasterizedGlyph.mk k'.character 3 3 1 1 (0, 0)
              (BitmapBuffer.rgb [])))
        (LoadGlyphOps.mk (fun (n : Nat) r =>
          (n + 1, Glyph.mk 4 false r.top r.left r.width r.height 0 0 0 0)))
        emptyCache 0
        [(GlyphKey.mk 'a' (FontKey.mk 0) (FSize.mk 32), true),
          (GlyphKey.mk 'b' (FontKey.mk 0) (FSize.mk 32), true)]).cache
        (GlyphKey.mk 'b' (FontKey.mk 0) (FSize.mk 32)) = some g ∧
      (runGets (Metrics.mk 7 (-3)) (fun _ => some 1)
        (fun k' => if k'.character = 'z' then
          RasterResult.ok RasterizedGlyph.default
          else RasterResult.missingGlyph
            (RasterizedGlyph.mk k'.character 3 3 1 1 (0, 0)
              (BitmapBuffer.rgb [])))
        (LoadGlyphOps.mk (fun (n : Nat) r =>
          (n + 1, Glyph.mk 4 false r.top r.left r.width r.height 0 0 0 0)))
        emptyCache 0
        [(GlyphKey.mk 'a' (FontKey.mk 0) (FSize.mk 32), true),
          (GlyphKey.mk 'b' (FontKey.mk 0) (FSize.mk 32), true)]).cache
        { GlyphKey.mk 'a' (FontKey.mk 0) (FSize.mk 32) with
          character := sentinelChar } = some g ∧
      (runGets (Metrics.mk 7 (-3)) (fun _ => some 1)
        (fun k' => if k'.character = 'z' then
          RasterResult.ok RasterizedGlyph.default
          else RasterResult.missingGlyph
            (RasterizedGlyph.mk k'.character 3 3 1 1 (0, 0)
              (BitmapBuffer.rgb [])))
        (LoadGlyphOps.mk (fun (n : Nat) r =>
          (n + 1, Glyph.mk 4 false r.top r.left r.width r.height 0 0 0 0)))
        emptyCache 0
        [(GlyphKey.mk 'a' (FontKey.mk 0) (FSize.mk 32), true),
          (GlyphKey.mk 'b' (FontKey.mk 0) (FSize.mk 32), true)]).loads =
        1 ∧
      (runGets (Metrics.mk 7 (-3)) (fun _ => some 1)
        (fun k' => if k'.character = 'z' then
          RasterResult.ok RasterizedGlyph.default
          else RasterResult.missingGlyph
            (RasterizedGlyph.mk k'.character 3 3 1 1 (0, 0)
              (BitmapBuffer.rgb [])))
        (LoadGlyphOps.mk (fun (n : Nat) r =>
          (n + 1, Glyph.mk 4 false r.top r.left r.width r.height 0 0 0 0)))
        emptyCache 0
        [(GlyphKey.mk 'a' (FontKey.mk 0) (FSize.mk 32), true),
          (GlyphKey.mk 'b' (FontKey.mk 0) (FSize.mk 32), true)]
        ).rasterKeys =
        [GlyphKey.mk 'a' (FontKey.mk 0) (FSize.mk 32),
          GlyphKey.mk 'b' (FontKey.mk 0) (FSize.mk 32)] :=
  fallback_sharing_amended (Metrics.mk 7 (-3)) (fun _ => some 1)
    (fun k' => if k'.character = 'z' then
      RasterResult.ok RasterizedGlyph.default
      else RasterResult.missingGlyph
        (RasterizedGlyph.mk k'.character 3 3 1 1 (0, 0)
          (BitmapBuffer.rgb [])))
    (LoadGlyphOps.mk (fun (n : Nat) r =>
      (n + 1, Glyph.mk 4 false r.top r.left r.width r.height 0 0 0 0)))
    0 (GlyphKey.mk 'a' (FontKey.mk 0) (FSize.mk 32))
    (GlyphKey.mk 'b' (FontKey.mk 0) (FSize.mk 32))
    (RasterizedGlyph.mk 'a' 3 3 1 1 (0, 0) (BitmapBuffer.rgb []))
    (RasterizedGlyph.mk 'b' 3 3 1 1 (0, 0) (BitmapBuffer.rgb []))
    rfl rfl (by decide) (by decide) (by decide) (by decide) (by decide)

/-- C1 counterexample: the sentinel identity can be pre-seeded by an
earlier missing-glyph substitution, so a later `get` for it never invokes
the rasterizer — zero calls, not "exactly once" — even though `get` was
called (twice) for that identity. -/
theorem idempotent_cache_hit_cex :
    ((runGets (Metrics.mk 7 (-3)) (fun _ => some 1)
      (fun k' => if k'.character = 'a' then
        RasterResult.missingGlyph
          (RasterizedGlyph.mk 'a' 1 1 0 0 (0, 0) (BitmapBuffer.rgb []))
        else RasterResult.ok
          (RasterizedGlyph.mk 'b' 1 1 0 0 (0, 0) (BitmapBuffer.rgb [])))
      (LoadGlyphOps.mk (fun (n : Nat) _ =>
        (n + 1, Glyph.mk 1 false 0 0 0 0 0 0 0 0)))
      emptyCache 0
      [(GlyphKey.mk 'a' (FontKey.mk 0) (FSize.mk 32), true),
        (GlyphKey.mk sentinelChar (FontKey.mk 0) (FSize.mk 32), true),
        (GlyphKey.mk sentinelChar (FontKey.mk 0) (FSize.mk 32),
          true)]).rasterKeys).count
      (GlyphKey.mk sentinelChar (FontKey.mk 0) (FSize.mk 32)) ≠ 1 ∧
    GlyphKey.mk sentinelChar (FontKey.mk 0) (FSize.mk 32) ∈
      ([(GlyphKey.mk 'a' (FontKey.mk 0) (FSize.mk 32), true),
        (GlyphKey.mk sentinelChar (FontKey.mk 0) (FSize.mk 32), true),
        (GlyphKey.mk sentinelChar (FontKey.mk 0) (FSize.mk 32),
          true)].map Prod.fst) := by
  refine ⟨?_, ?_⟩ <;> decide

/-- C1 amended: over any request sequence from a fresh cache, every `get`
for the same identity returns a bit-identical glyph; the rasterizer is
invoked at most once per identity — and exactly once for every requested
identity other than the reserved sentinel character, which can be
pre-seeded by a missing-glyph substitution and then rasterized zero
times. -/
theorem idempotent_cache_hit_amended {σ : Type} (metrics : Metrics)
    (cw : Char → Option Nat) (raster : GlyphKey → RasterResult)
    (ops : LoadGlyphOps σ) (ld0 : σ) (reqs : List (GlyphKey × Bool))
    (k : GlyphKey) :
    (∃ g, ∀ x ∈ resultsFor k reqs
      (runGets metrics cw raster ops emptyCache ld0 reqs).results,
      x = g) ∧
    ((runGets metrics cw raster ops emptyCache ld0
      reqs).rasterKeys).count k ≤ 1 ∧
    (k.character ≠ sentinelChar →
      ((runGets metrics cw raster ops emptyCache ld0
        reqs).rasterKeys).count k =
        if k ∈ reqs.map Prod.fst then 1 else 0) :=
  ⟨runGets_results_agree metrics cw raster ops reqs emptyCache ld0 k,
    runGets_count_le metrics cw raster ops reqs emptyCache ld0 k,
    fun h => runGets_count_exact metrics cw raster ops reqs emptyCache
      ld0 k h rfl⟩

/-- Witness for the amended C1: a key requested twice is rasterized
exactly once and both results agree. -/
theorem idempotent_cache_hit_amended_witness :
    (∃ g, ∀ x ∈ resultsFor (GlyphKey.mk 'A' (FontKey.mk 0) (FSize.mk 32))
      [(GlyphKey.mk 'A' (FontKey.mk 0) (FSize.mk 32), true),
        (GlyphKey.mk 'A' (FontKey.mk 0) (FSize.mk 32), true)]
      (runGets (Metrics.mk 7 (-3)) (fun _ => some 1)
        (fun _ => RasterResult.ok
          (RasterizedGlyph.mk 'A' 1 1 0 0 (0, 0) (BitmapBuffer.rgb [])))
        (LoadGlyphOps.mk (fun (n : Nat) _ =>
          (n + 1, Glyph.mk 1 false 0 0 0 0 0 0 0 0)))
        emptyCache 0
        [(GlyphKey.mk 'A' (FontKey.mk 0) (FSize.mk 32), true),
          (GlyphKey.mk 'A' (FontKey.mk 0) (FSize.mk 32),
            true)]).results, x = g) ∧
    ((runGets (Metrics.mk 7 (-3)) (fun _ => some 1)
      (fun _ => RasterResult.ok
        (RasterizedGlyph.mk 'A' 1 1 0 0 (0, 0) (BitmapBuffer.rgb [])))
      (LoadGlyphOps.mk (fun (n : Nat) _ =>
        (n + 1, Glyph.mk 1 false 0 0 0 0 0 0 0 0)))
      emptyCache 0
      [(GlyphKey.mk 'A' (FontKey.mk 0) (FSize.mk 32), true),
        (GlyphKey.mk 'A' (FontKey.mk 0) (FSize.mk 32),
          true)]).rasterKeys).count
      (GlyphKey.mk 'A' (FontKey.mk 0) (FSize.mk 32)) ≤ 1 ∧
    ((runGets (Metrics.mk 7 (-3)) (fun _ => some 1)
      (fun _ => RasterResult.ok
        (RasterizedGlyph.mk 'A' 1 1 0 0 (0, 0) (BitmapBuffer.rgb [])))
      (LoadGlyphOps.mk (fun (n : Nat) _ =>
        (n + 1, Glyph.mk 1 false 0 0 0 0 0 0 0 0)))
      emptyCache 0
      [(GlyphKey.mk 'A' (FontKey.mk 0) (FSize.mk 32), true),
        (GlyphKey.mk 'A' (FontKey.mk 0) (FSize.mk 32),
          true)]).rasterKeys).count
      (GlyphKey.mk 'A' (FontKey.mk 0) (FSize.mk 32)) =
      if GlyphKey.mk 'A' (FontKey.mk 0) (FSize.mk 32) ∈
        ([(GlyphKey.mk 'A' (FontKey.mk 0) (FSize.mk 32), true),
          (GlyphKey.mk 'A' (FontKey.mk 0) (FSize.mk 32), true)].map
          Prod.fst) then 1 else 0 := by
  have h := idempotent_cache_hit_amended (Metrics.mk 7 (-3))
    (fun _ => some 1)
    (fun _ => RasterResult.ok
      (RasterizedGlyph.mk 'A' 1 1 0 0 (0, 0) (BitmapBuffer.rgb [])))
    (LoadGlyphOps.mk (fun (n : Nat) _ =>
      (n + 1, Glyph.mk 1 false 0 0 0 0 0 0 0 0)))
    0
    [(GlyphKey.mk 'A' (FontKey.mk 0) (FSize.mk 32), true),
      (GlyphKey.mk 'A' (FontKey.mk 0) (FSize.mk 32), true)]
    (GlyphKey.mk 'A' (FontKey.mk 0) (FSize.mk 32))
  exact ⟨h.1, h.2.1, h.2.2 (by decide)⟩

/-- C7 counterexample: glyphs from two different atlases — reachable after
a genuine overflow of the first atlas — are both added by the driver loop
with no flush in between: the final batch simultaneously holds both
instances (length 2) while its bound texture is the first glyph's, which
differs from the second glyph's atlas texture. -/
theorem batch_single_texture_cex :
    ((AtlasSet.loadAll initialAtlasSet
      [RasterizedGlyph.mk 'W' 1024 1024 0 0 (0, 0) (BitmapBuffer.rgb []),
        RasterizedGlyph.mk 'H' 512 512 0 0 (0, 0)
          (BitmapBuffer.rgb [])]).map
      (fun p => p.2.map AtlasGlyph.tex_id)) = some [1, 2] ∧
    ((AtlasSet.loadAll initialAtlasSet
      [RasterizedGlyph.mk 'W' 1024 1024 0 0 (0, 0) (BitmapBuffer.rgb []),
        RasterizedGlyph.mk 'H' 512 512 0 0 (0, 0)
          (BitmapBuffer.rgb [])]).map
      (fun p =>
        ((Glsl3Renderer.draw_cells_loop RBatch.new
          (p.2.map (fun gl =>
            (RenderableCell.mk 'E' 10 0 0, gl)))).tex,
          (Glsl3Renderer.draw_cells_loop RBatch.new
            (p.2.map (fun gl =>
              (RenderableCell.mk 'E' 10 0 0, gl)))).instances.length))) =
      some (1, 2) ∧
    (1 : Nat) ≠ 2 := by
  refine ⟨?_, ?_, ?_⟩ <;> decide

/-- C7 amended: `add_item` adopts the texture of the first glyph added to
an empty batch; the `draw_cells` loop then appends one instance per cell
with no flush whatsoever (`render_batch` is never called from the loop),
so the batch keeps its first texture and accumulates every instance even
when later glyphs come from other atlases. -/
theorem batch_single_texture_amended (b0 : RBatch) (cell : RenderableCell)
    (g : AtlasGlyph) (ps : List (RenderableCell × AtlasGlyph))
    (h : b0.instances = []) :
    (Glsl3Renderer.draw_cells_loop b0 ((cell, g) :: ps)).tex = g.tex_id ∧
    (Glsl3Renderer.draw_cells_loop b0
      ((cell, g) :: ps)).instances.length = ps.length + 1 := by
  constructor
  · show (Glsl3Renderer.draw_cells_loop
      (Glsl3Renderer.add_item b0 cell g) ps).tex = g.tex_id
    rw [Glsl3Renderer.draw_cells_loop_tex ps _
      (Glsl3Renderer.add_item_nonempty b0 cell g),
      Glsl3Renderer.add_item_tex_empty b0 cell g h]
  · show (Glsl3Renderer.draw_cells_loop
      (Glsl3Renderer.add_item b0 cell g) ps).instances.length = _
    rw [Glsl3Renderer.draw_cells_loop_length,
      Glsl3Renderer.add_item_length, h]
    simp
    omega

/-- Witness for the amended C7: two glyphs from different textures, fed to
the loop on an empty batch. -/
theorem batch_single_texture_amended_witness :
    (Glsl3Renderer.draw_cells_loop RBatch.new
      [(RenderableCell.mk 'E' 10 0 0,
        AtlasGlyph.mk 1 0 0 4 4 0 0 0 0),
        (RenderableCell.mk 'F' 10 1 0,
          AtlasGlyph.mk 2 0 0 4 4 0 0 0 0)]).tex =
      (AtlasGlyph.mk 1 0 0 4 4 0 0 0 0).tex_id ∧
    (Glsl3Renderer.draw_cells_loop RBatch.new
      [(RenderableCell.mk 'E' 10 0 0,
        AtlasGlyph.mk 1 0 0 4 4 0 0 0 0),
        (RenderableCell.mk 'F' 10 1 0,
          AtlasGlyph.mk 2 0 0 4 4 0 0 0 0)]).instances.length =
      [(RenderableCell.mk 'F' 10 1 0,
        AtlasGlyph.mk 2 0 0 4 4 0 0 0 0)].length + 1 :=
  batch_single_texture_amended RBatch.new (RenderableCell.mk 'E' 10 0 0)
    (AtlasGlyph.mk 1 0 0 4 4 0 0 0 0)
    [(RenderableCell.mk 'F' 10 1 0, AtlasGlyph.mk 2 0 0 4 4 0 0 0 0)]
    rfl

end GlyphAtlas
